import Mathlib

/-!
Verification of PGDB core components against their specification.

Shallow embedding of the Python sources:
 - `src/pgdb/src/interval.py` (disjoint integer interval sets),
 - `src/pgdb/src/mi/gdbmi_parser.py` (GDB/MI parser and record classes),
 - `src/pgdb/src/mi/gdbmiarec.py` (aggregated records and substitutions),
 - `src/pgdb/src/comm.py` (message compression framing),
 - `src/pgdb/src/sbd.py` (scalable binary distribution policy),
 - `src/pgdb/src/gdbbe.py` with `src/mi/varobj.py` (varprint DFS).

Python mutable state is passed explicitly; Python exceptions are modelled
with `Except`/`Option`; unbounded Python integers are `Int`/`Nat`.
-/

namespace PGDB

/-! ## Interval (src/pgdb/src/interval.py) -/

/-- Python `list.sort()` on integers: stable ascending sort. -/
def pyListSort (l : List Int) : List Int := l.insertionSort (· ≤ ·)

/-- The `elif lis:` loop of `Interval.__init__`: walk the sorted list,
extending the current interval `(cmin, cmax)` when the next element is
`cmax + 1` and otherwise emitting it and starting anew. -/
def coalesceLis (cmin cmax : Int) : List Int → List (Int × Int)
  | [] => [(cmin, cmax)]
  | i :: rest =>
    if i = cmax + 1 then coalesceLis cmin (cmax + 1) rest
    else (cmin, cmax) :: coalesceLis i i rest

/-- `Interval.__init__(lis=..., is_sorted=...)`: sort unless `is_sorted`,
then build the compressed interval array (`self.intervals`).  An empty
list is falsy in Python, so it yields the empty array. -/
def intervalFromLis (lis : List Int) (is_sorted : Bool) : List (Int × Int) :=
  let l := if is_sorted then lis else pyListSort lis
  match l with
  | [] => []
  | x :: rest => coalesceLis x x rest

/-- The `if intervals:` loop of `Interval.__init__`: compress an existing
interval list, merging a next interval whose low end is exactly
`cur.high + 1`. -/
def coalesceIntervals (cur : Int × Int) : List (Int × Int) → List (Int × Int)
  | [] => [cur]
  | iv :: rest =>
    if iv.1 = cur.2 + 1 then coalesceIntervals (cur.1, iv.2) rest
    else cur :: coalesceIntervals iv rest

/-- `Interval.__init__(intervals=..., is_sorted=True)` (the only form the
set operations use): compress an already sorted interval list. -/
def intervalFromIntervals (ivs : List (Int × Int)) : List (Int × Int) :=
  match ivs with
  | [] => []
  | x :: rest => coalesceIntervals x rest

/-- `Interval._binary_search_intervals`: binary search for an interval
containing `i`, over the segment `[low, high)` of the array.  The `while`
loop is given explicit fuel; since the range shrinks strictly on every
iteration, fuel `high - low + 1` always suffices (see
`bsearchGo_isSome_iff`). -/
def bsearchGo (ivs : List (Int × Int)) (i : Int) :
    Nat → Nat → Nat → Option Nat
  | 0, _, _ => none
  | fuel + 1, low, high =>
    if low < high then
      match ivs[(low + high) / 2]? with
      | none => none
      | some v =>
        if i < v.1 then bsearchGo ivs i fuel low ((low + high) / 2)
        else if i > v.2 then bsearchGo ivs i fuel ((low + high) / 2 + 1) high
        else some ((low + high) / 2)
    else none

/-- `Interval.in_interval`: membership via binary search over the whole
interval array. -/
def in_interval (ivs : List (Int × Int)) (i : Int) : Bool :=
  (bsearchGo ivs i (ivs.length + 1) 0 ivs.length).isSome

/-- `Interval.count`: the number of represented elements. -/
def intervalCount (ivs : List (Int × Int)) : Int :=
  ivs.foldl (fun n p => n + (p.2 - p.1 + 1)) 0

/-- `Interval.__len__`: the number of stored interval tuples (not the
number of represented elements). -/
def intervalPyLen (ivs : List (Int × Int)) : Nat := ivs.length

/-- One interval's portion of `Interval.members()`: the generator yields
`lo` first and then counts up to `hi`. -/
def intervalMembersOne (p : Int × Int) : List Int :=
  p.1 :: (List.range (p.2 - p.1).toNat).map (fun k => p.1 + 1 + k)

/-- `Interval.members()` as a list, in generator order. -/
def intervalMembers (ivs : List (Int × Int)) : List Int :=
  ivs.flatMap intervalMembersOne

/-- The set of integers an interval array represents. -/
def ivsSet (ivs : List (Int × Int)) (x : Int) : Prop :=
  ∃ p ∈ ivs, p.1 ≤ x ∧ x ≤ p.2

instance (ivs : List (Int × Int)) (x : Int) : Decidable (ivsSet ivs x) := by
  unfold ivsSet; infer_instance

/-- The spec's well-formedness of a stored interval array: sorted,
pairwise disjoint, and maximally coalesced (a gap of at least one integer
between consecutive intervals), with each interval non-degenerate. -/
def ivsWF (ivs : List (Int × Int)) : Prop :=
  List.Pairwise (fun a b : Int × Int => a.2 + 1 < b.1) ivs ∧ ∀ p ∈ ivs, p.1 ≤ p.2

instance (ivs : List (Int × Int)) : Decidable (ivsWF ivs) := by
  unfold ivsWF; infer_instance

/-! ### Properties of the list-based construction -/

lemma coalesceLis_lo_ge :
    ∀ (rest : List Int) (cmin cmax : Int), cmin ≤ cmax →
      List.Chain (· < ·) cmax rest →
      ∀ p ∈ coalesceLis cmin cmax rest, cmin ≤ p.1 := by
  intro rest
  induction rest with
  | nil =>
    intro cmin cmax hc _ p hp
    simp only [coalesceLis, List.mem_singleton] at hp
    simp [hp]
  | cons i rest ih =>
    intro cmin cmax hc hch p hp
    rw [List.chain_cons] at hch
    obtain ⟨hlt, hch'⟩ := hch
    by_cases hi : i = cmax + 1
    · rw [coalesceLis, if_pos hi] at hp
      exact ih cmin (cmax + 1) (by omega) (hi ▸ hch') p hp
    · rw [coalesceLis, if_neg hi] at hp
      rcases List.mem_cons.mp hp with h | h
      · simp [h]
      · have := ih i i le_rfl hch' p h
        omega

lemma coalesceLis_lohi :
    ∀ (rest : List Int) (cmin cmax : Int), cmin ≤ cmax →
      List.Chain (· < ·) cmax rest →
      ∀ p ∈ coalesceLis cmin cmax rest, p.1 ≤ p.2 := by
  intro rest
  induction rest with
  | nil =>
    intro cmin cmax hc _ p hp
    simp only [coalesceLis, List.mem_singleton] at hp
    simp [hp, hc]
  | cons i rest ih =>
    intro cmin cmax hc hch p hp
    rw [List.chain_cons] at hch
    obtain ⟨hlt, hch'⟩ := hch
    by_cases hi : i = cmax + 1
    · rw [coalesceLis, if_pos hi] at hp
      exact ih cmin (cmax + 1) (by omega) (hi ▸ hch') p hp
    · rw [coalesceLis, if_neg hi] at hp
      rcases List.mem_cons.mp hp with h | h
      · simp [h, hc]
      · exact ih i i le_rfl hch' p h

lemma coalesceLis_pairwise :
    ∀ (rest : List Int) (cmin cmax : Int), cmin ≤ cmax →
      List.Chain (· < ·) cmax rest →
      List.Pairwise (fun a b : Int × Int => a.2 + 1 < b.1)
        (coalesceLis cmin cmax rest) := by
  intro rest
  induction rest with
  | nil =>
    intro cmin cmax _ _
    simp [coalesceLis]
  | cons i rest ih =>
    intro cmin cmax hc hch
    rw [List.chain_cons] at hch
    obtain ⟨hlt, hch'⟩ := hch
    by_cases hi : i = cmax + 1
    · rw [coalesceLis, if_pos hi]
      exact ih cmin (cmax + 1) (by omega) (hi ▸ hch')
    · rw [coalesceLis, if_neg hi]
      refine List.pairwise_cons.mpr ⟨?_, ih i i le_rfl hch'⟩
      intro q hq
      have hge := coalesceLis_lo_ge rest i i le_rfl hch' q hq
      omega

lemma coalesceLis_mem (x : Int) :
    ∀ (rest : List Int) (cmin cmax : Int), cmin ≤ cmax →
      List.Chain (· < ·) cmax rest →
      (ivsSet (coalesceLis cmin cmax rest) x ↔
        (cmin ≤ x ∧ x ≤ cmax) ∨ x ∈ rest) := by
  intro rest
  induction rest with
  | nil =>
    intro cmin cmax hc _
    simp [coalesceLis, ivsSet]
  | cons i rest ih =>
    intro cmin cmax hc hch
    rw [List.chain_cons] at hch
    obtain ⟨hlt, hch'⟩ := hch
    by_cases hi : i = cmax + 1
    · rw [coalesceLis, if_pos hi]
      rw [ih cmin (cmax + 1) (by omega) (hi ▸ hch')]
      constructor
      · rintro (⟨h1, h2⟩ | h)
        · rcases lt_or_le x (cmax + 1) with h3 | h3
          · exact Or.inl ⟨h1, by omega⟩
          · refine Or.inr (List.mem_cons.mpr (Or.inl ?_)); omega
        · exact Or.inr (List.mem_cons.mpr (Or.inr h))
      · rintro (⟨h1, h2⟩ | h)
        · exact Or.inl ⟨h1, by omega⟩
        · rcases List.mem_cons.mp h with h | h
          · subst h; exact Or.inl ⟨by omega, by omega⟩
          · exact Or.inr h
    · rw [coalesceLis, if_neg hi]
      have hmem : ivsSet ((cmin, cmax) :: coalesceLis i i rest) x ↔
          ((cmin ≤ x ∧ x ≤ cmax) ∨ ivsSet (coalesceLis i i rest) x) := by
        simp [ivsSet]
      rw [hmem, ih i i le_rfl hch']
      constructor
      · rintro (h | ⟨h1, h2⟩ | h)
        · exact Or.inl h
        · have : x = i := by omega
          exact Or.inr (List.mem_cons.mpr (Or.inl this))
        · exact Or.inr (List.mem_cons.mpr (Or.inr h))
      · rintro (h | h)
        · exact Or.inl h
        · rcases List.mem_cons.mp h with h | h
          · exact Or.inr (Or.inl ⟨by omega, by omega⟩)
          · exact Or.inr (Or.inr h)

/-! ### Binary search correctness over well-formed interval arrays -/

lemma pairwise_getElem_sep {ivs : List (Int × Int)}
    (hp : List.Pairwise (fun a b : Int × Int => a.2 + 1 < b.1) ivs)
    {j k : Nat} (hj : j < ivs.length) (hk : k < ivs.length) (hjk : j < k) :
    (ivs[j]).2 + 1 < (ivs[k]).1 :=
  (List.pairwise_iff_getElem.mp hp) j k hj hk hjk

lemma bsearchGo_isSome_iff (ivs : List (Int × Int)) (x : Int)
    (hp : List.Pairwise (fun a b : Int × Int => a.2 + 1 < b.1) ivs)
    (hw : ∀ p ∈ ivs, p.1 ≤ p.2) :
    ∀ (fuel low high : Nat), high - low < fuel → high ≤ ivs.length →
      ((bsearchGo ivs x fuel low high).isSome = true ↔
        ∃ j, low ≤ j ∧ j < high ∧ ∃ (hjl : j < ivs.length),
          (ivs[j]).1 ≤ x ∧ x ≤ (ivs[j]).2) := by
  intro fuel
  induction fuel with
  | zero =>
    intro low high hn hh
    omega
  | succ n ih =>
    intro low high hn hh
    rw [bsearchGo]
    by_cases hlh : low < high
    · rw [if_pos hlh]
      have hmidlt : (low + high) / 2 < high := by
        rw [Nat.div_lt_iff_lt_mul (by norm_num)]; omega
      have hmidge : low ≤ (low + high) / 2 := by
        rw [Nat.le_div_iff_mul_le (by norm_num)]; omega
      have hmlen : (low + high) / 2 < ivs.length := lt_of_lt_of_le hmidlt hh
      have hget : ivs[(low + high) / 2]? = some ivs[(low + high) / 2] :=
        List.getElem?_eq_some.mpr ⟨hmlen, rfl⟩
      rw [hget]
      have hmemmid : ivs[(low + high) / 2] ∈ ivs := List.getElem_mem hmlen
      have hwmid := hw _ hmemmid
      by_cases h1 : x < (ivs[(low + high) / 2]).1
      · simp only [if_pos h1]
        rw [ih low ((low + high) / 2) (by omega) (le_of_lt hmlen)]
        constructor
        · rintro ⟨j, hj1, hj2, hjl, hx1, hx2⟩
          exact ⟨j, hj1, by omega, hjl, hx1, hx2⟩
        · rintro ⟨j, hj1, hj2, hjl, hx1, hx2⟩
          refine ⟨j, hj1, ?_, hjl, hx1, hx2⟩
          rcases Nat.lt_trichotomy j ((low + high) / 2) with h | h | h
          · exact h
          · subst h; omega
          · have := pairwise_getElem_sep hp hmlen hjl h
            omega
      · simp only [if_neg h1]
        by_cases h2 : x > (ivs[(low + high) / 2]).2
        · simp only [if_pos h2]
          rw [ih ((low + high) / 2 + 1) high (by omega) hh]
          constructor
          · rintro ⟨j, hj1, hj2, hjl, hx1, hx2⟩
            exact ⟨j, by omega, hj2, hjl, hx1, hx2⟩
          · rintro ⟨j, hj1, hj2, hjl, hx1, hx2⟩
            refine ⟨j, ?_, hj2, hjl, hx1, hx2⟩
            rcases Nat.lt_trichotomy j ((low + high) / 2) with h | h | h
            · have := pairwise_getElem_sep hp hjl hmlen h
              omega
            · subst h; omega
            · omega
        · simp only [if_neg h2, Option.isSome_some, true_iff]
          exact ⟨(low + high) / 2, hmidge, hmidlt, hmlen, by omega, by omega⟩
    · rw [if_neg hlh]
      simp only [Option.isSome_none, Bool.false_eq_true, false_iff]
      rintro ⟨j, hj1, hj2, _⟩
      omega

lemma in_interval_iff_ivsSet (ivs : List (Int × Int))
    (hp : List.Pairwise (fun a b : Int × Int => a.2 + 1 < b.1) ivs)
    (hw : ∀ p ∈ ivs, p.1 ≤ p.2) (x : Int) :
    in_interval ivs x = true ↔ ivsSet ivs x := by
  unfold in_interval
  rw [bsearchGo_isSome_iff ivs x hp hw (ivs.length + 1) 0 ivs.length (by omega)
        le_rfl]
  unfold ivsSet
  constructor
  · rintro ⟨j, _, _, hjl, hx1, hx2⟩
    exact ⟨ivs[j], List.getElem_mem hjl, hx1, hx2⟩
  · rintro ⟨p, hpmem, hx1, hx2⟩
    obtain ⟨j, hjl, rfl⟩ := List.mem_iff_getElem.mp hpmem
    exact ⟨j, Nat.zero_le _, hjl, hjl, hx1, hx2⟩

lemma pyListSort_pairwise_lt (S : List Int) (h : S.Nodup) :
    List.Pairwise (· < ·) (pyListSort S) := by
  have hs : List.Sorted (· ≤ ·) (pyListSort S) := List.sorted_insertionSort _ S
  have hn : (pyListSort S).Nodup := (List.perm_insertionSort _ S).symm.nodup h
  exact (List.Pairwise.and hs hn).imp fun hab => lt_of_le_of_ne hab.1 hab.2

lemma pyListSort_mem (S : List Int) (x : Int) : x ∈ pyListSort S ↔ x ∈ S :=
  (List.perm_insertionSort _ S).mem_iff

/-- **C4, counterexample.** The claim quantifies over lists that may contain
duplicates, but `Interval(lis=[1, 1])` stores the array `[(1,1), (1,1)]`:
two equal (hence touching) intervals remain separate, so the stored array
is neither pairwise disjoint nor maximally coalesced. -/
theorem C4_counterexample_duplicates :
    intervalFromLis [1, 1] false = [(1, 1), (1, 1)] ∧
      ¬ ivsWF (intervalFromLis [1, 1] false) := by
  constructor
  · rfl
  · decide

/-- **C4, amended.** For every list `S` of non-negative integers *without
duplicates* (possibly unsorted), `Interval(lis=S)` stores an interval
array that is sorted, pairwise disjoint and maximally coalesced, and
`in_interval x` returns `true` iff `x ∈ S`.  (With duplicates the array
can contain repeated intervals, as the counterexample shows, although
membership still holds.) -/
theorem C4_interval_construction (S : List Int) (hpos : ∀ x ∈ S, 0 ≤ x)
    (hnd : S.Nodup) :
    ivsWF (intervalFromLis S false) ∧
      ∀ x : Int, in_interval (intervalFromLis S false) x = true ↔ x ∈ S := by
  have hsorted := pyListSort_pairwise_lt S hnd
  have hdef : intervalFromLis S false =
      (match pyListSort S with
       | [] => []
       | x :: rest => coalesceLis x x rest) := rfl
  rcases hS : pyListSort S with _ | ⟨x0, rest⟩
  · rw [hS] at hdef
    refine ⟨by rw [hdef]; exact ⟨List.Pairwise.nil, by simp⟩, ?_⟩
    intro x
    rw [hdef]
    have hfalse : in_interval ([] : List (Int × Int)) x = false := by
      simp [in_interval, bsearchGo]
    rw [hfalse]
    simp only [Bool.false_eq_true, false_iff]
    intro hxS
    have := (pyListSort_mem S x).mpr hxS
    rw [hS] at this
    exact absurd this (List.not_mem_nil x)
  · rw [hS] at hdef hsorted
    have hchain : List.Chain (· < ·) x0 rest := List.chain_iff_pairwise.mpr hsorted
    have hwf : ivsWF (intervalFromLis S false) := by
      rw [hdef]
      exact ⟨coalesceLis_pairwise rest x0 x0 le_rfl hchain,
             coalesceLis_lohi rest x0 x0 le_rfl hchain⟩
    refine ⟨hwf, ?_⟩
    intro x
    rw [hdef] at hwf ⊢
    rw [in_interval_iff_ivsSet _ hwf.1 hwf.2 x,
        coalesceLis_mem x rest x0 x0 le_rfl hchain]
    rw [← pyListSort_mem S x, hS]
    simp only [List.mem_cons]
    constructor
    · rintro (⟨h1, h2⟩ | h)
      · exact Or.inl (by omega)
      · exact Or.inr h
    · rintro (h | h)
      · exact Or.inl ⟨by omega, by omega⟩
      · exact Or.inr h

/-! ### `Interval.union` (src/pgdb/src/interval.py lines 200-257) -/

/-- `Interval._interval_intersect`: intersection of two closed intervals,
`None` when empty.  (A returned tuple is always truthy in Python, so
truthiness of the result is `isSome`.) -/
def interval_intersect (a b : Int × Int) : Option (Int × Int) :=
  if a.1 ≤ b.2 ∧ b.1 ≤ a.2 then some (max a.1 b.1, min a.2 b.2) else none

/-- `Interval._union_intersecting_intervals`. -/
def union_intersecting (a b : Int × Int) : Int × Int :=
  (min a.1 b.1, max a.2 b.2)

/-- The `while i < len(self) or k < len(other)` loop of `Interval.union`,
with explicit fuel (the loop terminates; fuel exhaustion yields `none`).
State is `(i, k, new, cur)`; each iteration runs the `self` block, then the
`other` block on the updated `cur`, then the `pasti`/`pastk` bookkeeping. -/
def unionLoop (self other : List (Int × Int)) :
    Nat → Nat → Nat → List (Int × Int) → (Int × Int) → Option (List (Int × Int))
  | 0, _, _, _, _ => none
  | fuel + 1, i, k, new, cur =>
    if i < self.length ∨ k < other.length then
      let s1 : Bool × Nat × List (Int × Int) × (Int × Int) :=
        if h : i < self.length then
          let interval := self[i]
          if (interval_intersect interval cur).isSome then
            (false, i + 1, new, union_intersecting interval cur)
          else if interval.2 < cur.1 then (false, i + 1, new ++ [interval], cur)
          else (true, i, new, cur)
        else (true, i, new, cur)
      match s1 with
      | (pasti, i', new1, cur1) =>
        let s2 : Bool × Nat × List (Int × Int) × (Int × Int) :=
          if h : k < other.length then
            let interval := other[k]
            if (interval_intersect interval cur1).isSome then
              (false, k + 1, new1, union_intersecting interval cur1)
            else if interval.2 < cur1.1 then
              (false, k + 1, new1 ++ [interval], cur1)
            else (true, k, new1, cur1)
          else (true, k, new1, cur1)
        match s2 with
        | (pastk, k', new2, cur2) =>
          if pasti && pastk then
            let cur3 := if _h : i' < self.length then self[i']
                        else if _h : k' < other.length then other[k'] else cur2
            unionLoop self other fuel i' k' (new2 ++ [cur2]) cur3
          else if i' = self.length ∧ k' = other.length then
            unionLoop self other fuel i' k' (new2 ++ [cur2]) cur2
          else unionLoop self other fuel i' k' new2 cur2
    else some new

/-- The Python `union` can return either a raw Python list
(`return self.intervals`) or an `Interval` object. -/
inductive PyUnionResult
  | pylist (l : List (Int × Int))
  | pyinterval (l : List (Int × Int))
deriving DecidableEq, Repr

/-- `Interval.union`: the two early-return branches followed by the merge
loop.  `none` only on fuel exhaustion (the loop terminates in at most
`2·(|self| + |other|) + 2` iterations). -/
def interval_union (self other : List (Int × Int)) : Option PyUnionResult :=
  if intervalPyLen other = 0 then some (.pylist self)
  else if intervalPyLen self = 0 then
    some (.pyinterval (intervalFromLis [] true))
  else
    match self with
    | [] => none   -- unreachable: `intervalPyLen self ≠ 0`
    | c :: _ =>
      (unionLoop self other (2 * (self.length + other.length) + 4) 1 0 [] c).map
        (fun new => .pyinterval (intervalFromIntervals new))

/-- **C5, code divergence.** Union with the empty `Interval` does not
return a new `Interval` equal to the non-empty operand: with an empty
right operand `union` executes `return self.intervals`, yielding the raw
Python list (so the set of Intervals is not closed under the operation),
and with an empty *left* operand it returns the empty `Interval`,
discarding the non-empty operand entirely. -/
theorem C5_union_empty_divergence :
    interval_union [(1, 2)] [] = some (.pylist [(1, 2)]) ∧
      interval_union [] [(1, 2)] = some (.pyinterval []) := by
  decide

/-- Witness for `C4_interval_construction` at `S = [5, 1, 2, 9]`. -/
theorem C4_interval_construction_witness :
    (∀ x ∈ ([5, 1, 2, 9] : List Int), 0 ≤ x) ∧ ([5, 1, 2, 9] : List Int).Nodup ∧
      (ivsWF (intervalFromLis [5, 1, 2, 9] false) ∧
        ∀ x : Int, in_interval (intervalFromLis [5, 1, 2, 9] false) x = true ↔
          x ∈ ([5, 1, 2, 9] : List Int)) :=
  ⟨by decide, by decide,
   C4_interval_construction [5, 1, 2, 9] (by decide) (by decide)⟩



/-! ## Python values and exceptions

Parsed GDB/MI payload values are Python strings, lists, tuples and dicts
(and substitution keys are Python ints).  A mutual inductive avoids nested
occurrences so that induction and derived decidable equality work. -/

mutual
inductive PyV
  | str (s : String)
  | int (n : Int)
  | pynone
  | vlist (xs : PyVList)
  | vtup (xs : PyVList)
  | vdict (xs : PyVDict)
deriving DecidableEq
inductive PyVList
  | nil
  | cons (x : PyV) (xs : PyVList)
deriving DecidableEq
inductive PyVDict
  | nil
  | cons (k : String) (v : PyV) (xs : PyVDict)
deriving DecidableEq
end

/-- Python exceptions raised by the embedded code. -/
inductive PyErr
  | valueError (s : String)
  | keyError (s : String)
  | indexError
  | typeError (s : String)
  | attributeError (s : String)
  | nameError (s : String)
  | unboundLocalError (s : String)
  | fuelExhausted
deriving DecidableEq, Repr

def PyVList.toList : PyVList → List PyV
  | .nil => []
  | .cons x xs => x :: xs.toList

def PyVList.ofList : List PyV → PyVList
  | [] => .nil
  | x :: xs => .cons x (PyVList.ofList xs)

def PyVList.append : PyVList → PyVList → PyVList
  | .nil, ys => ys
  | .cons x xs, ys => .cons x (xs.append ys)

def PyVDict.toList : PyVDict → List (String × PyV)
  | .nil => []
  | .cons k v xs => (k, v) :: xs.toList

def PyVDict.ofList : List (String × PyV) → PyVDict
  | [] => .nil
  | (k, v) :: xs => .cons k v (PyVDict.ofList xs)

def PyVDict.length : PyVDict → Nat
  | .nil => 0
  | .cons _ _ xs => xs.length + 1

/-- Python `d[k]` / `k in d` lookup. -/
def dLookup : PyVDict → String → Option PyV
  | .nil, _ => none
  | .cons k v xs, key => if k = key then some v else dLookup xs key

def dContains (d : PyVDict) (key : String) : Bool := (dLookup d key).isSome

/-- Python `d[k] = v`: replace in place when the key exists (keeping its
position), otherwise append in insertion order. -/
def dSet : PyVDict → String → PyV → PyVDict
  | .nil, key, v => .cons key v .nil
  | .cons k w xs, key, v =>
    if k = key then .cons k v xs else .cons k w (dSet xs key v)

/-- Python `d[k]` with `KeyError` when absent. -/
def dReq (d : PyVDict) (k : String) : Except PyErr PyV :=
  match dLookup d k with
  | some v => .ok v
  | none => .error (.keyError k)

mutual
/-- Python `==` on values: strings and ints compare by value, lists and
tuples elementwise but a list never equals a tuple, dicts by key set and
values (order-insensitive; dicts built by `dSet` have unique keys). -/
def pyEq : PyV → PyV → Bool
  | .str a, .str b => a = b
  | .int a, .int b => a = b
  | .pynone, .pynone => true
  | .vlist a, .vlist b => pyEqList a b
  | .vtup a, .vtup b => pyEqList a b
  | .vdict a, .vdict b => a.length = b.length && pyEqDictIncl a b
  | _, _ => false
def pyEqList : PyVList → PyVList → Bool
  | .nil, .nil => true
  | .cons x xs, .cons y ys => pyEq x y && pyEqList xs ys
  | _, _ => false
def pyEqDictIncl : PyVDict → PyVDict → Bool
  | .nil, _ => true
  | .cons k v xs, b =>
    (match dLookup b k with
     | some w => pyEq v w
     | none => false) && pyEqDictIncl xs b
end

/-- Python truthiness of a value. -/
def pyFalsy : PyV → Bool
  | .pynone => true
  | .str s => s.isEmpty
  | .int n => n = 0
  | .vlist xs => xs = .nil
  | .vtup xs => xs = .nil
  | .vdict d => d = .nil

/-- Python `v[k]` on an arbitrary value (only dicts are subscriptable by
string keys). -/
def pyIndexS (v : PyV) (k : String) : Except PyErr PyV :=
  match v with
  | .vdict d => dReq d k
  | _ => .error (.typeError "not subscriptable")

/-- Python `v.get(k)` (only on dicts). -/
def pyGetS (v : PyV) (k : String) : Except PyErr (Option PyV) :=
  match v with
  | .vdict d => .ok (dLookup d k)
  | _ => .error (.attributeError "get")

/-- Python iteration `for x in v`: lists and tuples yield elements, dicts
yield their keys, strings yield one-character strings. -/
def pyIter : PyV → Except PyErr (List PyV)
  | .vlist xs => .ok xs.toList
  | .vtup xs => .ok xs.toList
  | .vdict d => .ok (d.toList.map (fun p => .str p.1))
  | .str s => .ok (s.toList.map (fun c => .str (String.mk [c])))
  | _ => .error (.typeError "not iterable")

/-- Python `len(v)`. -/
def pyLen : PyV → Except PyErr Nat
  | .vlist xs => .ok xs.toList.length
  | .vtup xs => .ok xs.toList.length
  | .vdict d => .ok d.length
  | .str s => .ok s.length
  | _ => .error (.typeError "no len")

/-- Python `int(s)` for a decimal string with optional sign. -/
def pyStrToInt (s : String) : Except PyErr Int :=
  let chars := s.toList
  let (neg, digits) :=
    match chars with
    | '-' :: rest => (true, rest)
    | '+' :: rest => (false, rest)
    | rest => (false, rest)
  if digits ≠ [] ∧ digits.all Char.isDigit then
    let n : Nat := digits.foldl (fun acc c => acc * 10 + (c.toNat - 48)) 0
    .ok (if neg then -(n : Int) else (n : Int))
  else .error (.valueError s)

/-- Python `int(v)` on a value. -/
def pyToInt : PyV → Except PyErr Int
  | .int n => .ok n
  | .str s => pyStrToInt s
  | _ => .error (.typeError "int()")

/-! ## GDB/MI parser (src/pgdb/src/mi/gdbmi_parser.py)

Lines are handled as character lists.  The three regular expressions of
`GDBMIParser.__init__` are modelled directly; the recursive payload
parsers carry fuel (every nested call is on a strictly shorter string, so
`2·|src| + 8` fuel always suffices; fuel exhaustion is an artefact and is
reported as a distinct error that no run in this file reaches). -/

/-- Python `str.strip()` whitespace. -/
def pyIsSpace (c : Char) : Bool :=
  c = ' ' ∨ c = '\t' ∨ c = '\n' ∨ c = '\r' ∨ c = '\x0b' ∨ c = '\x0c'

def pyStrip (s : List Char) : List Char :=
  ((s.dropWhile pyIsSpace).reverse.dropWhile pyIsSpace).reverse

/-- Python `str.partition(sep)` for a one-character separator: text before
the first occurrence, whether it occurred, text after. -/
def pyPartition : List Char → Char → List Char × Bool × List Char
  | [], _ => ([], false, [])
  | x :: xs, c =>
    if x = c then ([], true, xs)
    else
      let (b, f, a) := pyPartition xs c
      (x :: b, f, a)

/-- The record-symbol characters of `GDBMIParser._all_record_symbols`. -/
def recordSymbols : List Char := ['^', '*', '+', '=', '~', '@', '&']

/-- `output_re = ([0-9]*)(\^|\*|\+|=|~|@|&)(.*)` under `re.match`:
leading digits, then a record symbol, then the rest of the line. -/
def outputMatch (s : List Char) : Option (List Char × Char × List Char) :=
  let ds := s.takeWhile Char.isDigit
  match s.dropWhile Char.isDigit with
  | c :: t => if c ∈ recordSymbols then some (ds, c, t) else none
  | [] => none

/-- `result_re = (done|running|connected|error|exit)(.*)` under
`re.match`, already composed with the `_result_class` mapping used by
`parse_result_record`.  The five alternatives are not prefixes of one
another, so alternation order is irrelevant. -/
def resultClassMatch (s : List Char) : Option (String × List Char) :=
  if s.take 4 = "done".toList then some ("DONE", s.drop 4)
  else if s.take 7 = "running".toList then some ("RUNNING", s.drop 7)
  else if s.take 9 = "connected".toList then some ("CONNECTED", s.drop 9)
  else if s.take 5 = "error".toList then some ("ERROR", s.drop 5)
  else if s.take 4 = "exit".toList then some ("EXIT", s.drop 4)
  else none

def isAsyncNameChar (c : Char) : Bool := c.isAlphanum ∨ c = '_' ∨ c = '-'

/-- `async_re = ([a-zA-Z0-9_\-]*)(\,.*)?` under `re.match`: this pattern
always matches; the second group is present only when a comma follows the
name. -/
def asyncMatch (s : List Char) : List Char × Option (List Char) :=
  let name := s.takeWhile isAsyncNameChar
  match s.dropWhile isAsyncNameChar with
  | ',' :: t => (name, some (',' :: t))
  | _ => (name, none)

/-- `_oob_mapper`. -/
def oobMapper (c : Char) : String :=
  if c = '*' then "EXEC"
  else if c = '+' then "STATUS"
  else if c = '=' then "NOTIFY"
  else if c = '~' then "CONSOLE"
  else if c = '@' then "TARGET"
  else "LOG"

/-- Result of the value-end scan inside `parse_result_list`: either a
delimiting comma was found at bracket depth 0 outside quotes (at index
`idx`, with the scanner state at that point), or the string was exhausted. -/
inductive PrlScan
  | found (idx : Nat) (brackets : Int) (inQuote : Bool) (prev : Option Char)
  | exhausted (brackets : Int) (inQuote : Bool) (prev : Option Char)
deriving Repr

/-- The `for char in right` scan of `parse_result_list`.  `brackets`,
`in_quote` and `prev_char` persist across entries of the outer `while`
loop, exactly as in the Python locals. -/
def prlScan : List Char → Nat → Int → Bool → Option Char → PrlScan
  | [], _, brackets, inQuote, prev => .exhausted brackets inQuote prev
  | c :: rest, idx, brackets, inQuote, prev =>
    if (c = '{' ∨ c = '[') ∧ ¬inQuote then
      prlScan rest (idx + 1) (brackets + 1) inQuote (some c)
    else if (c = '}' ∨ c = ']') ∧ ¬inQuote then
      prlScan rest (idx + 1) (brackets - 1) inQuote (some c)
    else if c = '"' ∧ prev ≠ some '\\' then
      prlScan rest (idx + 1) brackets (¬inQuote) (some c)
    else if c = ',' ∧ brackets = 0 ∧ ¬inQuote then
      .found idx brackets inQuote prev
    else prlScan rest (idx + 1) brackets inQuote (some c)

/-- The repeated-name bookkeeping of `parse_result_list`: the first
repeat turns the existing scalar into a two-element list, later repeats
append (and would raise `AttributeError` if the stored value were not a
list, which cannot happen). -/
def addToResults (results : PyVDict) (counts : List (String × Nat))
    (name : String) (value : PyV) :
    Except PyErr (PyVDict × List (String × Nat)) :=
  match counts.lookup name with
  | some 1 =>
    match dLookup results name with
    | some old =>
      .ok (dSet results name (.vlist (.cons old (.cons value .nil))),
           counts.map (fun p => if p.1 = name then (p.1, p.2 + 1) else p))
    | none => .error (.keyError name)
  | some _ =>
    match dLookup results name with
    | some (.vlist xs) =>
      .ok (dSet results name (.vlist (xs.append (.cons value .nil))),
           counts.map (fun p => if p.1 = name then (p.1, p.2 + 1) else p))
    | some _ => .error (.attributeError "append")
    | none => .error (.keyError name)
  | none => .ok (dSet results name value, counts ++ [(name, 1)])

/-- Scan of the `for char in src` loop of `parse_list`: collect the value
segments delimited by depth-0 commas; an unquoted `=` at depth 0
reclassifies the whole body as a result list. -/
inductive PlScan
  | reclassify (segs : List (List Char))
  | done (segs : List (List Char)) (last : List Char)
deriving Repr

def plScan : List Char → Int → Bool → Option Char → List Char →
    List (List Char) → PlScan
  | [], _, _, _, cur, segs => .done segs cur
  | c :: rest, br, inq, prev, cur, segs =>
    if (c = '{' ∨ c = '[') ∧ ¬inq then
      plScan rest (br + 1) inq (some c) (cur ++ [c]) segs
    else if (c = '}' ∨ c = ']') ∧ ¬inq then
      plScan rest (br - 1) inq (some c) (cur ++ [c]) segs
    else if c = '"' ∧ prev ≠ some '\\' then
      plScan rest br (¬inq) (some c) (cur ++ [c]) segs
    else if c = '=' ∧ br = 0 ∧ ¬inq then .reclassify segs
    else if c = ',' ∧ br = 0 ∧ ¬inq then
      plScan rest br inq (some c) [] (segs ++ [cur])
    else plScan rest br inq (some c) (cur ++ [c]) segs

/-- `GDBMIParser.parse_const`: strip the first and last character. -/
def parse_const (src : List Char) : PyV :=
  .str ((src.drop 1).dropLast.asString)

mutual

/-- `GDBMIParser.parse_value`: dispatch on the first character
(`IndexError` on an empty string, `ValueError` for the unsupported legacy
`key=value` format). -/
def parse_value (fuel : Nat) (src : List Char) : Except PyErr PyV :=
  match fuel with
  | 0 => .error .fuelExhausted
  | fuel + 1 =>
    match src with
    | [] => .error .indexError
    | c :: _ =>
      if c = '{' then parse_tuple fuel src
      else if c = '[' then parse_list fuel src
      else if c = '"' then .ok (parse_const src)
      else .error (.valueError src.asString)

/-- Parse a list of already-delimited value segments in order
(exceptions propagate from the first failing segment, as in the Python
loop that parses each segment when its delimiting comma is reached). -/
def parse_values (fuel : Nat) (segs : List (List Char)) :
    Except PyErr (List PyV) :=
  match fuel with
  | 0 => .error .fuelExhausted
  | fuel + 1 =>
    match segs with
    | [] => .ok []
    | s :: rest => do
      let v ← parse_value fuel s
      let vs ← parse_values fuel rest
      .ok (v :: vs)

/-- `GDBMIParser.parse_tuple`. -/
def parse_tuple (fuel : Nat) (src : List Char) : Except PyErr PyV :=
  match fuel with
  | 0 => .error .fuelExhausted
  | fuel + 1 =>
    if src = ['{', '}'] then .ok (.vdict .nil)
    else do
      let d ← parse_result_list fuel ((src.drop 1).dropLast)
      .ok (.vdict d)

/-- `GDBMIParser.parse_list`: either a list of values or, when an
unquoted depth-0 `=` occurs, a result list over the whole body.  Segments
scanned before the `=` are parsed (and their results discarded), so their
exceptions surface first, as in the source. -/
def parse_list (fuel : Nat) (src : List Char) : Except PyErr PyV :=
  match fuel with
  | 0 => .error .fuelExhausted
  | fuel + 1 =>
    if src = ['[', ']'] then .ok (.vlist .nil)
    else
      let body := (src.drop 1).dropLast
      match plScan body 0 false none [] [] with
      | .reclassify segs => do
        let _ ← parse_values fuel segs
        let d ← parse_result_list fuel body
        .ok (.vdict d)
      | .done segs last => do
        let vs ← parse_values fuel segs
        if last ≠ [] then do
          let v ← parse_value fuel last
          .ok (.vlist (PyVList.ofList (vs ++ [v])))
        else .ok (.vlist (PyVList.ofList vs))

/-- `GDBMIParser.parse_result_list`. -/
def parse_result_list (fuel : Nat) (src : List Char) :
    Except PyErr PyVDict :=
  match fuel with
  | 0 => .error .fuelExhausted
  | fuel + 1 => prlGo fuel src 0 false none .nil []

/-- The `while True` loop of `parse_result_list`.  `brackets`,
`in_quote` and `prev_char` persist across iterations; `length` is the
scanner index and resets when a delimiting comma is found. -/
def prlGo (fuel : Nat) (src : List Char) (brackets : Int) (inQuote : Bool)
    (prev : Option Char) (results : PyVDict)
    (counts : List (String × Nat)) : Except PyErr PyVDict :=
  match fuel with
  | 0 => .error .fuelExhausted
  | fuel + 1 =>
    let (varname, sep, right) := pyPartition src '='
    if ¬sep then .ok results
    else
      match prlScan right 0 brackets inQuote prev with
      | .found idx br' q' p' => do
        let value ← parse_value fuel (right.take idx)
        let (results', counts') ←
          addToResults results counts varname.asString value
        prlGo fuel (right.drop (idx + 1)) br' q' p' results' counts'
      | .exhausted _ _ _ =>
        if varname ≠ [] ∧ right ≠ [] then do
          let value ← parse_value fuel right
          let (results', _) ←
            addToResults results counts varname.asString value
          .ok results'
        else .ok results

end



/-! ## Parser record classes (src/pgdb/src/mi/gdbmi_parser.py lines 334-781)

`GDBMIRecord` declares `record_subtypes = set()` and `fields = []` as
*class-level* attributes.  `record.record_subtypes.add(...)` mutates that
single shared set, and `record.fields += [...]` mutates the shared list in
place (binding the instance attribute to the same object).  This shared
class state is modelled by `ClassState`, threaded through record
creation; a record whose `ownSubtypes`/`ownFields` is `none` reads the
shared class state, while `GDBMIStreamRecord.create_record` assigns fresh
instance-level objects (`some ...`).  When an exception propagates, the
threaded state is discarded; no theorem below inspects state after an
exception. -/

/-- The class-level `GDBMIRecord.record_subtypes` set and
`GDBMIRecord.fields` list.  The Python set is modelled as a list without
duplicates (insertion order; only membership is ever observed). -/
structure ClassState where
  subtypes : List String := []
  fields : List String := []
deriving DecidableEq, Repr

def ClassState.addSubtype (st : ClassState) (s : String) : ClassState :=
  if s ∈ st.subtypes then st else { st with subtypes := st.subtypes ++ [s] }

def ClassState.addFields (st : ClassState) (fs : List String) : ClassState :=
  { st with fields := st.fields ++ fs }

/-- `GDBMIFrame`: `level` and `addr` are required keys (`KeyError` when
missing), the rest use `.get`; a falsy argument yields the dummy frame. -/
structure Frame where
  level : Option PyV := none
  addr : Option PyV := none
  func : Option PyV := none
  source_file : Option PyV := none
  line : Option PyV := none
  binary_file : Option PyV := none
deriving DecidableEq

def mkFrame (v : PyV) : Except PyErr Frame :=
  if pyFalsy v then
    .ok {}
  else
    match v with
    | .vdict d => do
      let lev ← dReq d "level"
      let addr ← dReq d "addr"
      .ok { level := some lev, addr := some addr, func := dLookup d "func",
            source_file := dLookup d "file", line := dLookup d "line",
            binary_file := dLookup d "from" }
    | _ => .error (.typeError "frame is not subscriptable")

/-- `GDBMIBreakpoint`: `number`, `type`, `disp` and `enabled` are required
keys (`KeyError` when missing, in that order), the rest use `.get`; a
falsy argument yields the dummy breakpoint.  Attribute names follow the
Python ones (`at` is `at_attr` since `at` is reserved). -/
structure Bkpt where
  number : Option PyV := none
  breakpoint_type : Option PyV := none
  catch_type : Option PyV := none
  disposition : Option PyV := none
  enabled : Option PyV := none
  addr : Option PyV := none
  func : Option PyV := none
  filename : Option PyV := none
  fullname : Option PyV := none
  line : Option PyV := none
  at_attr : Option PyV := none
  pending : Option PyV := none
  evaluated_by : Option PyV := none
  thread : Option PyV := none
  task : Option PyV := none
  cond : Option PyV := none
  ignore : Option PyV := none
  enable : Option PyV := none
  timeframe_usage : Option PyV := none
  static_tracepoint_marker_string_id : Option PyV := none
  mask : Option PyV := none
  pass_count : Option PyV := none
  original_location : Option PyV := none
  times : Option PyV := none
  installed : Option PyV := none
  what : Option PyV := none
  thread_groups : Option PyV := none
deriving DecidableEq

def mkBkpt (v : PyV) : Except PyErr Bkpt :=
  if pyFalsy v then
    .ok {}
  else
    match v with
    | .vdict d => do
      let number ← dReq d "number"
      let btype ← dReq d "type"
      let catchType := dLookup d "catch-type"
      let disp ← dReq d "disp"
      let enabled ← dReq d "enabled"
      .ok { number := some number, breakpoint_type := some btype,
            catch_type := catchType, disposition := some disp,
            enabled := some enabled, addr := dLookup d "addr",
            func := dLookup d "func", filename := dLookup d "filename",
            fullname := dLookup d "fullname", line := dLookup d "line",
            at_attr := dLookup d "at", pending := dLookup d "pending",
            evaluated_by := dLookup d "evaluated-by",
            thread := dLookup d "thread", task := dLookup d "task",
            cond := dLookup d "cond", ignore := dLookup d "ignore",
            enable := dLookup d "enable",
            timeframe_usage := dLookup d "timeframe-usage",
            static_tracepoint_marker_string_id :=
              dLookup d "static-tracepoint-marker-string-id",
            mask := dLookup d "mask", pass_count := dLookup d "pass",
            original_location := dLookup d "original-location",
            times := dLookup d "times", installed := dLookup d "installed",
            what := dLookup d "what",
            thread_groups := dLookup d "thread-groups" }
    | _ => .error (.typeError "bkpt is not subscriptable")

/-- Values of record instance attributes: parsed values, `None`, derived
domain objects, and the container shapes the result-record constructor
builds. -/
inductive AVal
  | pv (v : PyV)
  | pynone
  | aframe (f : Frame)
  | abkpt (b : Bkpt)
  | alist (xs : List AVal)
  | adictPy (xs : List (PyV × AVal))

/-- `x if x is not None else None` for `.get` results. -/
def optAVal : Option PyV → AVal
  | some v => .pv v
  | none => .pynone

/-- `_make_list`: wrap in a list unless the value already *is* a list
(tuples are not converted). -/
def make_list (v : PyV) : PyV :=
  match v with
  | .vlist _ => v
  | _ => .vlist (.cons v .nil)

/-- A parser record object.  `ownSubtypes`/`ownFields` are `none` when
the record reads the shared class-level set/list (see `ClassState`), and
`some` when the instance assigned its own. -/
structure PRecord where
  rtype : Option String := none
  token : Option Nat := none
  ownSubtypes : Option (List String) := none
  ownFields : Option (List String) := none
  string : String := ""
  output : String := ""
  attrs : List (String × AVal) := []

/-- Python attribute assignment `record.k = v`. -/
def PRecord.setAttr (r : PRecord) (k : String) (v : AVal) : PRecord :=
  { r with attrs :=
      if r.attrs.any (fun p => p.1 = k) then
        r.attrs.map (fun p => if p.1 = k then (p.1, v) else p)
      else r.attrs ++ [(k, v)] }

/-- The `record_subtypes` a record object observes: its own instance set
when assigned, otherwise the shared class-level set. -/
def PRecord.subtypesIn (r : PRecord) (st : ClassState) : List String :=
  r.ownSubtypes.getD st.subtypes

/-- The `fields` a record object observes. -/
def PRecord.fieldsIn (r : PRecord) (st : ClassState) : List String :=
  r.ownFields.getD st.fields

/-- Python `d[k] = v` on a dict keyed by parsed values (`==` equality). -/
def aDictPySet (d : List (PyV × AVal)) (k : PyV) (v : AVal) :
    List (PyV × AVal) :=
  if d.any (fun p => pyEq p.1 k) then
    d.map (fun p => if pyEq p.1 k then (p.1, v) else p)
  else d ++ [(k, v)]

/-- Python `l[i] = v` with negative-index wrap-around and `IndexError`. -/
def pySetIdx (l : List AVal) (i : Int) (v : AVal) :
    Except PyErr (List AVal) :=
  let n : Int := l.length
  let j : Int := if i < 0 then i + n else i
  if 0 ≤ j ∧ j < n then .ok (l.set j.toNat v) else .error .indexError

/-- `GDBMIAsyncRecord.create_record` (lines 344-450). -/
def GDBMIAsyncRecord_create (record_type : String) (token : Option Nat)
    (output_class : String) (output : PyVDict) (st : ClassState) :
    Except PyErr (PRecord × ClassState) := do
  let st := st.addSubtype output_class
  let frameAttr : AVal ←
    match dLookup output "frame" with
    | some fv => do
      let f ← mkFrame fv
      pure (.aframe f)
    | none => pure .pynone
  let r : PRecord := { rtype := some record_type, token := token,
                       attrs := [("frame", frameAttr)] }
  let st := st.addFields ["frame"]
  if record_type = "EXEC" then do
    let tid ← dReq output "thread-id"
    let r := r.setAttr "thread_id" (.pv tid)
    let st := st.addFields ["thread-id"]
    if output_class = "stopped" then do
      let reason ← dReq output "reason"
      let stopped ← dReq output "stopped-threads"
      let core := dLookup output "core"
      let r := ((r.setAttr "reason" (.pv reason)).setAttr
        "stopped_threads" (.pv stopped)).setAttr "core" (optAVal core)
      pure (r, st.addFields ["reason", "stopped_threads", "core"])
    else pure (r, st)
  else if record_type = "NOTIFY" then do
    if output_class = "thread-group-added" then do
      let v ← dReq output "id"
      pure (r.setAttr "thread_group_id" (.pv v),
            st.addFields ["thread_group_id"])
    else if output_class = "thread-group-removed" then do
      let v ← dReq output "id"
      pure (r.setAttr "thread_group_id" (.pv v),
            st.addFields ["thread_group_id"])
    else if output_class = "thread-group-started" then do
      let v ← dReq output "id"
      let pid ← dReq output "pid"
      pure ((r.setAttr "thread_group_id" (.pv v)).setAttr "pid" (.pv pid),
            st.addFields ["thread_group_id", "pid"])
    else if output_class = "thread-group-exited" then do
      let v ← dReq output "id"
      let ec := dLookup output "exit-code"
      pure ((r.setAttr "thread_group_id" (.pv v)).setAttr
              "exit_code" (optAVal ec),
            st.addFields ["thread_group_id", "exit_code"])
    else if output_class = "thread-created" then do
      let v ← dReq output "id"
      let g ← dReq output "group-id"
      pure ((r.setAttr "thread_id" (.pv v)).setAttr
              "thread_group_id" (.pv g),
            st.addFields ["thread_id", "thread_group_id"])
    else if output_class = "thread-exited" then do
      let v ← dReq output "id"
      let g ← dReq output "group-id"
      pure ((r.setAttr "thread_id" (.pv v)).setAttr
              "thread_group_id" (.pv g),
            st.addFields ["thread_id", "thread_group_id"])
    else if output_class = "thread-selected" then do
      let v ← dReq output "id"
      pure (r.setAttr "thread_id" (.pv v), st.addFields ["thread_id"])
    else if output_class = "library-loaded" ∨
            output_class = "library-unloaded" then do
      let v ← dReq output "id"
      let tn ← dReq output "target-name"
      let hn ← dReq output "host-name"
      let tg := dLookup output "thread-group"
      pure ((((r.setAttr "library_id" (.pv v)).setAttr
                "target_name" (.pv tn)).setAttr
              "host_name" (.pv hn)).setAttr "thread_group_id" (optAVal tg),
            st.addFields ["library_id", "target_name", "host_name",
                          "thread_group_id"])
    else if output_class = "traceframe-changed" then do
      match dLookup output "num" with
      | some num => do
        let tp ← dReq output "tracepoint"
        pure (((r.setAttr "end" (.pv (.int 0))).setAttr
                 "num" (.pv num)).setAttr "tracepoint" (.pv tp),
              st.addFields ["end", "num", "tracepoint"])
      | none =>
        pure (r.setAttr "end" (.pv (.int 1)), st.addFields ["end"])
    else if output_class = "tsv-created" then do
      let n ← dReq output "name"
      let ini ← dReq output "initial"
      pure ((r.setAttr "name" (.pv n)).setAttr "initial" (.pv ini),
            st.addFields ["name", "initial"])
    else if output_class = "tsv-deleted" then do
      pure (r.setAttr "name" (optAVal (dLookup output "name")),
            st.addFields ["name"])
    else if output_class = "tsv-modified" then do
      let n ← dReq output "name"
      let ini ← dReq output "initial"
      pure (((r.setAttr "name" (.pv n)).setAttr
               "initial" (.pv ini)).setAttr
              "current" (optAVal (dLookup output "current")),
            st.addFields ["name", "initial", "current"])
    else if output_class = "breakpoint-created" ∨
            output_class = "breakpoint-modified" then do
      let b ← mkBkpt (← dReq output "bkpt")
      pure (r.setAttr "breakpoint" (.abkpt b), st.addFields ["breakpoint"])
    else if output_class = "breakpoint-deleted" then do
      let v ← dReq output "id"
      pure (r.setAttr "breakpoint_id" (.pv v),
            st.addFields ["breakpoint_id"])
    else if output_class = "record-started" ∨
            output_class = "record-stopped" then do
      let g ← dReq output "group-id"
      pure (r.setAttr "thread_group_id" (.pv g),
            st.addFields ["thread_group_id"])
    else if output_class = "cmd-param-changed" then do
      let p ← dReq output "param"
      let v ← dReq output "value"
      pure ((r.setAttr "param" (.pv p)).setAttr "value" (.pv v),
            st.addFields ["param", "value"])
    else if output_class = "memory-changed" then do
      let tg ← dReq output "thread-group"
      let addr ← dReq output "addr"
      let len ← dReq output "len"
      let mt := dLookup output "type"
      pure ((((r.setAttr "thread_group_id" (.pv tg)).setAttr
                "addr" (.pv addr)).setAttr
              "length" (.pv len)).setAttr "mem_type" (optAVal mt),
            st.addFields ["thread_group_id", "addr", "length", "mem_type"])
    else pure (r, st)
  else pure (r, st)

/-- `GDBMIStreamRecord.create_record` (lines 459-467): assigns *instance*
`record_subtypes`/`fields`, so stream records do not alias the class
state. -/
def GDBMIStreamRecord_create (record_type : String) (src : List Char) :
    PRecord :=
  { rtype := some record_type, ownSubtypes := some [], token := none,
    string := src.asString, ownFields := some ["string"] }

/-- `GDBMIResultRecord.create_record` (lines 475-645).  The Python method
builds `record` through a chain of `if KEY in results:` blocks and then
*falls off the end without returning it*, so the caller receives `None`:
the returned record is always `none` here, while the class-state effects
(and any exceptions raised while building) are faithfully produced.
Two source slips are transcribed as they are: the `register-names` block
indexes `results` with the changed-registers key, and the `groups` block
references the undefined name `RECORD_GROUPS` (a `NameError`). -/
def GDBMIResultRecord_create (token : Option Nat) (result_class : String)
    (results : PyVDict) (st : ClassState) :
    Except PyErr (Option PRecord × ClassState) := do
  let r : PRecord := { rtype := some "RESULT", token := token }
  let st := st.addSubtype result_class
  -- if RESULT_BREAKPOINT in results:
  let (r, st) ←
    if dContains results "bkpt" then do
      let st := st.addSubtype "bkpt"
      let b ← mkBkpt (← dReq results "bkpt")
      pure (r.setAttr "breakpoint" (.abkpt b), st.addFields ["breakpoint"])
    else pure (r, st)
  -- if RESULT_BREAKPOINT_TABLE in results:
  let (r, st) ←
    if dContains results "BreakpointTable" then do
      let st := st.addSubtype "BreakpointTable"
      let r := r.setAttr "breakpoints" (.alist [])
      let st := st.addFields ["breakpoints"]
      let body ← pyIndexS (← dReq results "BreakpointTable") "body"
      let items ← pyIter body
      let bs ← items.mapM mkBkpt
      pure (r.setAttr "breakpoints" (.alist (bs.map AVal.abkpt)), st)
    else pure (r, st)
  -- if RESULT_WATCHPOINT in results:
  let (r, st) ←
    if dContains results "wpt" then do
      let st := st.addSubtype "wpt"
      let w ← dReq results "wpt"
      let num ← pyIndexS w "number"
      let expv ← pyIndexS w "exp"
      pure ((r.setAttr "number" (.pv num)).setAttr "exp" (.pv expv),
            st.addFields ["number", "exp"])
    else pure (r, st)
  -- simple scalar blocks: source-path, path, cwd
  let (r, st) ←
    if dContains results "source-path" then do
      let v ← dReq results "source-path"
      pure (r.setAttr "source_path" (.pv v),
            (st.addSubtype "source-path").addFields ["source_path"])
    else pure (r, st)
  let (r, st) ←
    if dContains results "path" then do
      let v ← dReq results "path"
      pure (r.setAttr "path" (.pv v),
            (st.addSubtype "path").addFields ["path"])
    else pure (r, st)
  let (r, st) ←
    if dContains results "cwd" then do
      let v ← dReq results "cwd"
      pure (r.setAttr "cwd" (.pv v), (st.addSubtype "cwd").addFields ["cwd"])
    else pure (r, st)
  -- threads / current-thread-id / thread-ids / number-of-threads /
  -- new-thread-id
  let (r, st) ←
    if dContains results "threads" then do
      let v ← dReq results "threads"
      pure (r.setAttr "threads" (.pv (make_list v)),
            (st.addSubtype "threads").addFields ["threads"])
    else pure (r, st)
  let (r, st) ←
    if dContains results "current-thread-id" then do
      let v ← dReq results "current-thread-id"
      pure (r.setAttr "current_thread_id" (.pv v),
            (st.addSubtype "current-thread-id").addFields
              ["current_thread_id"])
    else pure (r, st)
  let (r, st) ←
    if dContains results "thread-ids" then do
      let v ← dReq results "thread-ids"
      pure (r.setAttr "thread_ids" (.pv (make_list v)),
            (st.addSubtype "thread-ids").addFields ["thread_ids"])
    else pure (r, st)
  let (r, st) ←
    if dContains results "number-of-threads" then do
      let v ← dReq results "number-of-threads"
      pure (r.setAttr "num" (.pv v),
            (st.addSubtype "number-of-threads").addFields ["num"])
    else pure (r, st)
  let (r, st) ←
    if dContains results "new-thread-id" then do
      let v ← dReq results "new-thread-id"
      pure (r.setAttr "new_thread_id" (.pv v),
            (st.addSubtype "new-thread-id").addFields ["new_thread_id"])
    else pure (r, st)
  -- frame / depth
  let (r, st) ←
    if dContains results "frame" then do
      let st := st.addSubtype "frame"
      let f ← mkFrame (← dReq results "frame")
      pure (r.setAttr "frame" (.aframe f), st.addFields ["frame"])
    else pure (r, st)
  let (r, st) ←
    if dContains results "depth" then do
      let v ← dReq results "depth"
      pure (r.setAttr "stack_depth" (.pv v),
            (st.addSubtype "depth").addFields ["stack_depth"])
    else pure (r, st)
  -- stack-args: `record.arguments = [[]] * len(...)` aliases one list at
  -- every level, so all appends accumulate into that single shared list.
  let (r, st) ←
    if dContains results "stack-args" then do
      let st := st.addSubtype "stack-args"
      let sa ← dReq results "stack-args"
      let n ← pyLen sa
      let frames ← pyIter sa
      let shared ← frames.foldlM (fun (acc : List PyV) fr => do
        let lev ← pyToInt (← pyIndexS fr "level")
        if lev < -(n : Int) ∨ (n : Int) ≤ lev then
          throw .indexError
        else do
          let names ← pyIter (← pyIndexS (← pyIndexS fr "args") "name")
          pure (acc ++ names)) []
      let r := r.setAttr "arguments"
        (.alist (List.replicate n (.alist (shared.map AVal.pv))))
      pure (r, st.addFields ["arguemtns"])
    else pure (r, st)
  -- stack: `[[]] * len(...)` again, but positions are *assigned*.
  let (r, st) ←
    if dContains results "stack" then do
      let st := st.addSubtype "stack"
      let sv ← dReq results "stack"
      let n ← pyLen sv
      let frames ← pyIter sv
      let stackList ← frames.foldlM (fun (acc : List AVal) fr => do
        let lev ← pyToInt (← pyIndexS fr "level")
        let f ← mkFrame fr
        pySetIdx acc lev (.aframe f))
        (List.replicate n (.pv (.vlist .nil)))
      pure (r.setAttr "stack" (.alist stackList), st.addFields ["stack"])
    else pure (r, st)
  -- locals / variables: dicts keyed by parsed values
  let (r, st) ←
    if dContains results "locals" then do
      let st := st.addSubtype "locals"
      let lv ← dReq results "locals"
      let items ← pyIter lv
      let d ← items.foldlM (fun (acc : List (PyV × AVal)) loc => do
        let n ← pyIndexS loc "name"
        let v ← pyIndexS loc "value"
        pure (aDictPySet acc n (.pv v))) []
      pure (r.setAttr "local_variables" (.adictPy d),
            st.addFields ["local_variables"])
    else pure (r, st)
  let (r, st) ←
    if dContains results "variables" then do
      let st := st.addSubtype "variables"
      let lv ← dReq results "variables"
      let items ← pyIter lv
      let d ← items.foldlM (fun (acc : List (PyV × AVal)) var => do
        let n ← pyIndexS var "name"
        let v ← pyIndexS var "value"
        pure (aDictPySet acc n (.pv v))) []
      pure (r.setAttr "variables" (.adictPy d), st.addFields ["variables"])
    else pure (r, st)
  -- asm_insns: subtype only (TODO in the source)
  let st := if dContains results "asm_insns" then st.addSubtype "asm_insns"
            else st
  let (r, st) ←
    if dContains results "value" then do
      let v ← dReq results "value"
      pure (r.setAttr "value" (.pv v),
            (st.addSubtype "value").addFields ["value"])
    else pure (r, st)
  let (r, st) ←
    if dContains results "changed-registers" then do
      let v ← dReq results "changed-registers"
      pure (r.setAttr "changed_registers" (.pv (make_list v)),
            (st.addSubtype "changed-registers").addFields
              ["changed_registers"])
    else pure (r, st)
  -- register-names: the source indexes `results` with the
  -- changed-registers key here.
  let (r, st) ←
    if dContains results "register-names" then do
      let st := st.addSubtype "register-names"
      let v ← dReq results "changed-registers"
      pure (r.setAttr "register_names" (.pv (make_list v)),
            st.addFields ["register_names"])
    else pure (r, st)
  let (r, st) ←
    if dContains results "register-values" then do
      let st := st.addSubtype "register-values"
      let rv ← dReq results "register-values"
      let items ← pyIter rv
      let d ← items.foldlM (fun (acc : List (PyV × AVal)) reg => do
        let n ← pyIndexS reg "number"
        let v ← pyIndexS reg "value"
        pure (aDictPySet acc n (.pv v))) []
      pure (r.setAttr "register_values" (.adictPy d),
            st.addFields ["register_values"])
    else pure (r, st)
  let (r, st) ←
    if dContains results "memory" then do
      let st := st.addSubtype "memory"
      let m ← dReq results "memory"
      let b ← pyIndexS m "begin"
      let o ← pyIndexS m "offset"
      let e ← pyIndexS m "end"
      let c ← pyIndexS m "contents"
      pure (((((r.setAttr "begin" (.pv b)).setAttr
                 "offset" (.pv o)).setAttr
                "end" (.pv e)).setAttr "contents" (.pv c)),
            st.addFields ["begin", "offset", "end", "contents"])
    else pure (r, st)
  let st := if dContains results "trace-variables" then
              st.addSubtype "trace-variables"
            else st
  let (r, st) ←
    if dContains results "lines" then do
      let st := st.addSubtype "lines"
      let lv ← dReq results "lines"
      let items ← pyIter lv
      let d ← items.foldlM (fun (acc : List (PyV × AVal)) ln => do
        let pc ← pyIndexS ln "pc"
        let l ← pyIndexS ln "line"
        pure (aDictPySet acc pc (.pv l))) []
      pure (r.setAttr "lines" (.adictPy d), st.addFields ["lines"])
    else pure (r, st)
  let (r, st) ←
    if dContains results "files" then do
      let st := st.addSubtype "files"
      let fv ← dReq results "files"
      let items ← pyIter fv
      let fs ← items.mapM (fun f => pyIndexS f "file")
      pure (r.setAttr "files" (.alist (fs.map AVal.pv)),
            st.addFields ["files"])
    else pure (r, st)
  let (r, st) ←
    if dContains results "line" then do
      let v ← dReq results "line"
      pure (r.setAttr "line" (.pv v),
            (st.addSubtype "line").addFields ["line"])
    else pure (r, st)
  let (r, st) ←
    if dContains results "file" then do
      let v ← dReq results "file"
      pure (r.setAttr "file" (.pv v),
            (st.addSubtype "file").addFields ["file"])
    else pure (r, st)
  let (r, st) ←
    if dContains results "fullname" then do
      let v ← dReq results "fullname"
      pure (r.setAttr "fullname" (.pv v),
            (st.addSubtype "fullname").addFields ["fullname"])
    else pure (r, st)
  let (r, st) ←
    if dContains results "macro-info" then do
      let v ← dReq results "macro-info"
      pure (r.setAttr "macro_info" (.pv v),
            (st.addSubtype "macro-info").addFields ["macro_info"])
    else pure (r, st)
  let (r, st) ←
    if dContains results "result" then do
      let v ← dReq results "result"
      pure (r.setAttr "result" (.pv v),
            (st.addSubtype "result").addFields ["result"])
    else pure (r, st)
  -- groups: the source references the undefined name RECORD_GROUPS.
  if dContains results "groups" then
    throw (.nameError "RECORD_GROUPS")
  else pure ()
  let st := if dContains results "OSDataTable" then
              st.addSubtype "OSDataTable"
            else st
  let (r, st) ←
    if dContains results "thread-group" then do
      let v ← dReq results "thread-group"
      pure (r.setAttr "thread_group_id" (.pv v),
            (st.addSubtype "thread-group").addFields ["thread_group_id"])
    else pure (r, st)
  let (r, st) ←
    if dContains results "inferior_tty_terminal" then do
      let v ← dReq results "inferior_tty_terminal"
      pure (r.setAttr "inferior_tty" (.pv v),
            (st.addSubtype "inferior_tty_terminal").addFields
              ["inferior_tty"])
    else pure (r, st)
  let (_r, st) ←
    if dContains results "time" then do
      let st := st.addSubtype "time"
      let t ← dReq results "time"
      let w ← pyIndexS t "wallclock"
      let u ← pyIndexS t "user"
      let sys ← pyIndexS t "system"
      pure ((((r.setAttr "wallclock" (.pv w)).setAttr
                "user" (.pv u)).setAttr "system" (.pv sys)),
            st.addFields ["wallclock", "user", "system"])
    else pure (r, st)
  -- No `return record` in the source: the caller receives None.
  pure (none, st)

/-- Per-line fuel for the payload parsers: every fuel decrement consumes
input or descends into a strictly shorter substring, so this linear-times-
depth budget is never exhausted for the inputs considered here. -/
def lineFuel (line : List Char) : Nat := (line.length + 4) * 8

def charsToNat (ds : List Char) : Nat :=
  ds.foldl (fun acc c => acc * 10 + (c.toNat - 48)) 0

/-- `GDBMIParser.parse_result_record` (lines 163-173): `ValueError` when
no result class matches (the `if not result_class` re-check can never
fire once the alternation matched). -/
def parse_result_record (fuel : Nat) (token : Option Nat)
    (src : List Char) (st : ClassState) :
    Except PyErr (Option PRecord × ClassState) :=
  match resultClassMatch src with
  | none => .error (.valueError src.asString)
  | some (klass, rest) => do
    let results ← parse_result_list fuel (rest.drop 1)
    GDBMIResultRecord_create token klass results st

/-- `GDBMIParser.parse_async_output` (lines 195-210).  The async regex
always matches, so the `if not match` check never fires; `=traceframe-
changed,end` is special-cased. -/
def parse_async_output (fuel : Nat) (src : List Char) :
    Except PyErr (String × PyVDict) :=
  let (name, rest?) := asyncMatch src
  match rest? with
  | some rest =>
    let rest1 := rest.drop 1
    if rest1 = "end".toList then .ok (name.asString, .nil)
    else do
      let d ← parse_result_list fuel rest1
      .ok (name.asString, d)
  | none => .ok (name.asString, .nil)

/-- `GDBMIParser.parse_async_record`. -/
def parse_async_record (fuel : Nat) (token : Option Nat) (symbol : Char)
    (src : List Char) (st : ClassState) :
    Except PyErr (PRecord × ClassState) := do
  let (oc, output) ← parse_async_output fuel src
  GDBMIAsyncRecord_create (oobMapper symbol) token oc output st

/-- One stripped line of `GDBMIParser.parse_output`: `none` when the line
is the `(gdb)` terminator, otherwise the appended record (which is itself
`None` for every `^` line, since `GDBMIResultRecord.create_record` does
not return the record). -/
def parse_one_line (line : List Char) (st : ClassState) :
    Except PyErr (Option (Option PRecord) × ClassState) :=
  if line = "(gdb)".toList then .ok (none, st)
  else
    match outputMatch line with
    | none =>
      .ok (some (some { rtype := some "UNKNOWN", output := line.asString }),
           st)
    | some (ds, symbol, rest) =>
      let token : Option Nat := if ds = [] then none else some (charsToNat ds)
      if symbol = '^' then do
        let (rec?, st') ← parse_result_record (lineFuel line) token rest st
        .ok (some rec?, st')
      else if symbol ∈ ['*', '+', '='] then do
        let (r, st') ← parse_async_record (lineFuel line) token symbol rest st
        .ok (some (some r), st')
      else
        .ok (some (some (GDBMIStreamRecord_create (oobMapper symbol) rest)),
             st)

/-- Python `src.split("\n")` at character level. -/
def pySplitNl : List Char → List (List Char)
  | [] => [[]]
  | c :: rest =>
    match pySplitNl rest with
    | h :: t => if c = '\n' then [] :: h :: t else (c :: h) :: t
    | [] => [[]]

/-- `GDBMIParser.parse_output` (lines 131-161): split on newlines, strip,
drop the terminator, parse each line into a record (an unmatched line
becomes an unknown record carrying the original text). -/
def parse_output (src : String) (st : ClassState) :
    Except PyErr (List (Option PRecord) × ClassState) :=
  (pySplitNl src.toList).foldlM
    (fun (acc : List (Option PRecord) × ClassState) l => do
      let (records, st) := acc
      let (rec?, st') ← parse_one_line (pyStrip l) st
      match rec? with
      | none => pure (records, st')
      | some r => pure (records ++ [r], st'))
    ([], st)

/-! ### Parser claims -/

set_option maxRecDepth 200000 in
/-- **C2.** Parsing the spec's concrete breakpoint line does not yield a
result record at all: `GDBMIBreakpoint.__init__` reads the required key
`disp`, which the input lacks, so parsing raises `KeyError("disp")`.
Moreover, even on a payload that carries `disp`,
`GDBMIResultRecord.create_record` builds the record and then falls off
the end without `return record`, so the caller receives `None` instead of
a record (and hence no `breakpoint.number`/`line` and no hashable
record). -/
theorem C2_parse_breakpoint_line_code_bug :
    parse_output
      "^done,bkpt=\x7bnumber=\"1\",type=\"breakpoint\",enabled=\"y\",addr=\"0x400500\",func=\"main\",file=\"a.c\",line=\"10\"\x7d"
      {} = .error (.keyError "disp") ∧
    GDBMIResultRecord_create none "DONE"
      (PyVDict.ofList [("bkpt", .vdict (PyVDict.ofList
        [("number", .str "1"), ("type", .str "breakpoint"),
         ("disp", .str "keep"), ("enabled", .str "y"),
         ("addr", .str "0x400500"), ("func", .str "main"),
         ("file", .str "a.c"), ("line", .str "10")]))]) {} =
      .ok (none, { subtypes := ["DONE", "bkpt"],
                   fields := ["breakpoint"] }) :=
  ⟨rfl, rfl⟩

/-- **C3, counterexample.** The parser does raise: a `^` line whose
result class is not one of done/running/connected/error/exit makes
`parse_result_record` raise `ValueError` instead of producing an unknown
record. -/
theorem C3_counterexample_parser_raises :
    parse_output "^foo" {} = .error (.valueError "foo") := rfl

/-- **C3, amended.** A line that fails the top-level record regex
(including unbalanced-bracket and stray-token lines) is consumed and
reported as an unknown record carrying the original text, and no record
is partial; but `parse_output` is *not* total: a `^` line with an
unrecognized result class raises `ValueError`, as does a payload value
that is neither a quoted string, a tuple, nor a list. -/
theorem C3_unmatched_lines_become_unknown :
    (∀ (st : ClassState) (line : List Char),
        outputMatch line = none → ¬ line = "(gdb)".toList →
        parse_one_line line st =
          .ok (some (some { rtype := some "UNKNOWN",
                            output := line.asString }), st)) ∧
    parse_output "^foo" {} = .error (.valueError "foo") ∧
    parse_output "*stopped,reason=x" {} = .error (.valueError "x") := by
  refine ⟨?_, rfl, rfl⟩
  intro st line hm hg
  unfold parse_one_line
  rw [if_neg hg, hm]

/-- Witness for `C3_unmatched_lines_become_unknown` at the stray-token
line `no match`. -/
theorem C3_unmatched_lines_become_unknown_witness :
    outputMatch "no match".toList = none ∧
      ¬ "no match".toList = "(gdb)".toList ∧
      parse_one_line "no match".toList {} =
        .ok (some (some { rtype := some "UNKNOWN", output := "no match" }),
             {}) :=
  ⟨by decide, by decide,
   C3_unmatched_lines_become_unknown.1 {} "no match".toList (by decide)
     (by decide)⟩

/-! ### C10: class-level record state -/

/-- The async exec record parsed from `*running,thread-id="1"`. -/
def c10AsyncRec : PRecord :=
  { rtype := some "EXEC", token := none,
    attrs := [("frame", .pynone), ("thread_id", .pv (.str "1"))] }

/-- The stream record parsed from `~out`. -/
def c10StreamRec : PRecord :=
  { rtype := some "CONSOLE", ownSubtypes := some [], token := none,
    string := "out", ownFields := some ["string"] }

/-- The class-level state after parsing both lines. -/
def c10St : ClassState :=
  { subtypes := ["running"], fields := ["frame", "thread-id"] }

/-- **C10, counterexample.** Not *every* record shares the class-level
`record_subtypes`: `GDBMIStreamRecord.create_record` assigns a fresh
instance-level empty set, so after an async record has added the subtype
`running`, a stream record created afterwards still observes no
subtypes. -/
theorem C10_counterexample_stream_record :
    parse_output "*running,thread-id=\"1\"\n~out" {} =
      .ok ([some c10AsyncRec, some c10StreamRec], c10St) ∧
    "running" ∈ c10AsyncRec.subtypesIn c10St ∧
    "running" ∉ c10StreamRec.subtypesIn c10St :=
  ⟨rfl, by decide, by decide⟩

/-- The notify record parsed from `=thread-created,id="2",group-id="g"`. -/
def c10NotifyRec : PRecord :=
  { rtype := some "NOTIFY", token := none,
    attrs := [("frame", .pynone), ("thread_id", .pv (.str "2")),
              ("thread_group_id", .pv (.str "g"))] }

/-- The unknown record parsed from the stray line `foo`. -/
def c10UnknownRec : PRecord := { rtype := some "UNKNOWN", output := "foo" }

/-- The class-level state after parsing all three lines. -/
def c10StAll : ClassState :=
  { subtypes := ["running", "thread-created"],
    fields := ["frame", "thread-id", "frame", "thread_id",
               "thread_group_id"] }

/-- **C10, amended.** Async and result records, and the unknown records
made in `parse_output`, carry no instance-level
`record_subtypes`/`fields` and hence observe the single class-level set
and list of `GDBMIRecord`, which accumulate the subtypes and field names
of all such records ever created — after parsing an exec-running line, a
thread-created line and a stray line, each of the three records observes
the subtype set `{running, thread-created}` and the concatenated fields
of both async records.  Stream records are the exception: their creation
assigns a fresh instance-level empty `record_subtypes` and
`fields = ["string"]`, so they do not share. -/
theorem C10_class_level_record_state :
    (∀ (rt : String) (src : List Char),
        (GDBMIStreamRecord_create rt src).ownSubtypes = some [] ∧
        (GDBMIStreamRecord_create rt src).ownFields = some ["string"]) ∧
    parse_output
      "*running,thread-id=\"1\"\n=thread-created,id=\"2\",group-id=\"g\"\nfoo"
      {} = .ok ([some c10AsyncRec, some c10NotifyRec, some c10UnknownRec],
                c10StAll) ∧
    c10AsyncRec.ownSubtypes = none ∧ c10NotifyRec.ownSubtypes = none ∧
    c10UnknownRec.ownSubtypes = none ∧
    c10AsyncRec.subtypesIn c10StAll = ["running", "thread-created"] ∧
    c10NotifyRec.subtypesIn c10StAll = ["running", "thread-created"] ∧
    c10UnknownRec.subtypesIn c10StAll = ["running", "thread-created"] ∧
    c10AsyncRec.fieldsIn c10StAll =
      ["frame", "thread-id", "frame", "thread_id", "thread_group_id"] ∧
    c10StreamRec.subtypesIn c10StAll = [] :=
  ⟨fun _ _ => ⟨rfl, rfl⟩, rfl, rfl, rfl, rfl, rfl, rfl, rfl, rfl, rfl⟩

/-! ## Aggregated records (src/pgdb/src/mi/gdbmiarec.py)

`Substitution` stores, per key, a pair `(default, overrides)`; its `ids`
attribute starts as Python `None` and becomes an `Interval`.  The records
this module consumes carry their parsed payload in `results` (result
records), `output` (async records) or `string` (stream records); they are
modelled by `ARecord` with exactly those data attributes plus the type
tag.  `_aggregate_record` mutates the given record in place (the Python
object the parser produced *is* the returned one); the functional model
returns the updated record. -/

/-- Ordered assoc-list operations for Python dicts keyed by ints
(the override maps `rank → value`). -/
def ovLookup : List (Int × PyV) → Int → Option PyV
  | [], _ => none
  | (k, v) :: rest, key => if k = key then some v else ovLookup rest key

def ovContains (d : List (Int × PyV)) (k : Int) : Bool := (ovLookup d k).isSome

def ovSet : List (Int × PyV) → Int → PyV → List (Int × PyV)
  | [], key, v => [(key, v)]
  | (k, w) :: rest, key, v =>
    if k = key then (k, v) :: rest else (k, w) :: ovSet rest key v

/-- Assoc-list operations for `Substitution.substitutions`
(`key → (default, overrides)`). -/
def sLookup : List (Nat × (PyV × List (Int × PyV))) → Nat →
    Option (PyV × List (Int × PyV))
  | [], _ => none
  | (k, v) :: rest, key => if k = key then some v else sLookup rest key

def sSet : List (Nat × (PyV × List (Int × PyV))) → Nat →
    (PyV × List (Int × PyV)) → List (Nat × (PyV × List (Int × PyV)))
  | [], key, v => [(key, v)]
  | (k, w) :: rest, key, v =>
    if k = key then (k, v) :: rest else (k, w) :: sSet rest key v

/-- `Substitution.__init__`: `ids` is `None` until the first id arrives. -/
structure Subst where
  substitutions : List (Nat × (PyV × List (Int × PyV))) := []
  cur_subst_key : Nat := 0
  ids : Option (List (Int × Int)) := none
deriving DecidableEq

/-- `not self.ids` — `None` is falsy, and so is an empty `Interval`
(truthiness goes through `Interval.__len__`). -/
def Subst.idsFalsy (s : Subst) : Bool :=
  match s.ids with
  | none => true
  | some l => l.isEmpty

/-- The shared id-update of `add_substitution`/`add_id`: create the
interval on the first id, and otherwise `self.ids += Interval([vid])`
(that is, `Interval.union`) unless `vid` is already a member.  The
`pylist` union result cannot occur here because the right operand is
non-empty. -/
def Subst.updateIds (s : Subst) (vid : Int) : Except PyErr Subst :=
  if s.idsFalsy then
    .ok { s with ids := some (intervalFromLis [vid] true) }
  else
    match s.ids with
    | none => .ok s   -- unreachable: idsFalsy is true for none
    | some l =>
      if in_interval l vid then .ok s
      else
        match interval_union l (intervalFromLis [vid] true) with
        | some (.pyinterval l') => .ok { s with ids := some l' }
        | some (.pylist l') => .ok { s with ids := some l' }
        | none => .error .fuelExhausted

/-- `Substitution.add_substitution`. -/
def Subst.add_substitution (s : Subst) (value : PyV) (vid : Int) :
    Except PyErr (Nat × Subst) := do
  let key := s.cur_subst_key
  let s := { s with cur_subst_key := key + 1,
                    substitutions := sSet s.substitutions key (value, []) }
  let s ← s.updateIds vid
  .ok (key, s)

/-- `Substitution.add_id`. -/
def Subst.add_id (s : Subst) (vid : Int) : Except PyErr Subst :=
  s.updateIds vid

/-- `Substitution.get_substitution`. -/
def Subst.get_substitution (s : Subst) (key : Int) (vid : Int) :
    Except PyErr PyV :=
  if key < 0 then .error (.keyError "substitution key")
  else
    match sLookup s.substitutions key.toNat with
    | none => .error (.keyError "substitution key")
    | some (d, ov) => .ok ((ovLookup ov vid).getD d)

/-- The list→tuple conversion used when counting values
(`if _is_list(v): d = tuple(v)`). -/
def toCounterKey (v : PyV) : PyV :=
  match v with
  | .vlist xs => .vtup xs
  | _ => v

/-- Count the values of the two override dicts under Python `==`,
in first-occurrence order. -/
def countValues (vals : List PyV) : List (PyV × Nat) :=
  vals.foldl (fun acc v =>
    let d := toCounterKey v
    if acc.any (fun p => pyEq p.1 d) then
      acc.map (fun p => if pyEq p.1 d then (p.1, p.2 + 1) else p)
    else acc ++ [(d, 1)]) []

/-- `max(counter_dict.iterkeys(), key=...)`: the first key attaining the
maximal count under iteration order. -/
def firstMax (counter : List (PyV × Nat)) : PyV × Nat :=
  match counter with
  | [] => (.pynone, 0)   -- unreachable: the caller checks non-emptiness
  | c :: rest => rest.foldl (fun best p => if p.2 > best.2 then p else best) c

/-- The thrice-repeated "some value exceeds the default count" block of
`merge_substitution`: make `max_value` the new default, keep the non-max
entries of both old dicts, and move both old defaults into the dict for
every id not overridden. -/
def mergeReplaceBranch (max_value my_old_default other_old_default : PyV)
    (my_old_dict other_old_dict : List (Int × PyV))
    (myIds otherIds : List (Int × Int)) : PyV × List (Int × PyV) :=
  let d := my_old_dict.foldl (fun acc p =>
    if ¬ pyEq p.2 max_value then ovSet acc p.1 p.2 else acc) []
  let d := other_old_dict.foldl (fun acc p =>
    if ¬ pyEq p.2 max_value then ovSet acc p.1 p.2 else acc) d
  let d := (intervalMembers myIds).foldl (fun acc vid =>
    if ¬ ovContains my_old_dict vid then ovSet acc vid my_old_default
    else acc) d
  let d := (intervalMembers otherIds).foldl (fun acc vid =>
    if ¬ ovContains other_old_dict vid then ovSet acc vid other_old_default
    else acc) d
  (max_value, d)

/-- `dict(list(a.items()) + list(b.items()))`: later (b) entries win. -/
def ovMergeDicts (a b : List (Int × PyV)) : List (Int × PyV) :=
  b.foldl (fun acc p => ovSet acc p.1 p.2) a

/-- `Substitution.merge_substitution` (lines 82-239).  `num_my_ids` is
`len(self.ids)` — `Interval.__len__`, i.e. the number of *stored interval
tuples*, not the number of ids the interval represents. -/
def mergeSubstitution (self other : Subst) (my_key other_key : Nat) :
    Except PyErr (PyV × List (Int × PyV)) := do
  let (my_old_default, my_old_dict) ←
    match sLookup self.substitutions my_key with
    | some v => pure v
    | none => throw (.keyError "my_key")
  let (other_old_default, other_old_dict) ←
    match sLookup other.substitutions other_key with
    | some v => pure v
    | none => throw (.keyError "other_key")
  let myIds ←
    match self.ids with
    | some l => pure l
    | none => throw (.typeError "len of None")
  let otherIds ←
    match other.ids with
    | some l => pure l
    | none => throw (.typeError "len of None")
  let num_my_ids : Int := myIds.length
  let num_other_ids : Int := otherIds.length
  let my_dict_count : Int := my_old_dict.length
  let other_dict_count : Int := other_old_dict.length
  let my_default_count := num_my_ids - my_dict_count
  let other_default_count := num_other_ids - other_dict_count
  let counter_dict :=
    countValues (my_old_dict.map Prod.snd ++ other_old_dict.map Prod.snd)
  if counter_dict.isEmpty then
    if pyEq my_old_default other_old_default then
      pure (my_old_default, my_old_dict)
    else if my_default_count ≥ other_default_count then
      pure (my_old_default,
            (intervalMembers otherIds).foldl
              (fun acc vid => ovSet acc vid other_old_default) my_old_dict)
    else
      pure (other_old_default,
            (intervalMembers myIds).foldl
              (fun acc vid => ovSet acc vid my_old_default) my_old_dict)
  else do
    let (max_value, max_count) := firstMax counter_dict
    let (new_default, new_dict) :=
      if pyEq my_old_default other_old_default then
        if (max_count : Int) > my_default_count + other_default_count then
          mergeReplaceBranch max_value my_old_default other_old_default
            my_old_dict other_old_dict myIds otherIds
        else
          (my_old_default, ovMergeDicts my_old_dict other_old_dict)
      else
        if my_default_count > other_default_count then
          if (max_count : Int) > my_default_count then
            mergeReplaceBranch max_value my_old_default other_old_default
              my_old_dict other_old_dict myIds otherIds
          else
            (my_old_default,
             (intervalMembers otherIds).foldl (fun acc vid =>
               if ¬ ovContains other_old_dict vid then
                 ovSet acc vid other_old_default
               else acc) (ovMergeDicts my_old_dict other_old_dict))
        else
          if (max_count : Int) > other_default_count then
            mergeReplaceBranch max_value my_old_default other_old_default
              my_old_dict other_old_dict myIds otherIds
          else
            (other_old_default,
             (intervalMembers myIds).foldl (fun acc vid =>
               if ¬ ovContains my_old_dict vid then
                 ovSet acc vid my_old_default
               else acc) (ovMergeDicts my_old_dict other_old_dict))
    -- final passthrough: drop entries equal to the new default
    pure (new_default,
          new_dict.filter (fun p => ¬ pyEq p.2 new_default))

/-- `_is_str` / `_is_primitive`: a string, or a list/tuple whose elements
are all strings. -/
def isStrV : PyV → Bool
  | .str _ => true
  | _ => false

def _is_primitive : PyV → Bool
  | .str _ => true
  | .vlist xs => xs.toList.all isStrV
  | .vtup xs => xs.toList.all isStrV
  | _ => false

mutual
/-- `_do_substitution` (lines 299-321): replace each primitive leaf by a
fresh substitution key; recurse through lists, tuples and dicts; anything
else (an int, `None`) falls through to `return None, None`, after which a
later primitive leaf would hit `None.add_substitution`
(`AttributeError`). -/
def do_subst (vid : Int) (data : PyV) (subst : Option Subst) :
    Except PyErr (Option PyV × Option Subst) :=
  if _is_primitive data then
    match subst with
    | none => .error (.attributeError "add_substitution")
    | some s => do
      let (k, s') ← s.add_substitution data vid
      .ok (some (.int k), some s')
  else
    match data with
    | .vlist xs => do
      let (xs', subst') ← do_subst_list vid xs subst
      .ok (some (.vlist xs'), subst')
    | .vtup xs => do
      let (xs', subst') ← do_subst_list vid xs subst
      .ok (some (.vtup xs'), subst')
    | .vdict d => do
      let (d', subst') ← do_subst_dict vid d subst
      .ok (some (.vdict d'), subst')
    | _ => .ok (none, none)

def do_subst_list (vid : Int) (xs : PyVList) (subst : Option Subst) :
    Except PyErr (PyVList × Option Subst) :=
  match xs with
  | .nil => .ok (.nil, subst)
  | .cons x rest => do
    let (x', subst') ← do_subst vid x subst
    let (rest', subst'') ← do_subst_list vid rest subst'
    .ok (.cons (x'.getD .pynone) rest', subst'')

def do_subst_dict (vid : Int) (d : PyVDict) (subst : Option Subst) :
    Except PyErr (PyVDict × Option Subst) :=
  match d with
  | .nil => .ok (.nil, subst)
  | .cons k v rest => do
    let (v', subst') ← do_subst vid v subst
    let (rest', subst'') ← do_subst_dict vid rest subst'
    .ok (.cons k (v'.getD .pynone) rest', subst'')
end

mutual
/-- `_undo_substitution` (lines 323-343): substitution keys (ints) are
looked up; lists, tuples and dicts recurse; anything else is returned
unchanged. -/
def undo_subst (vid : Int) (data : PyV) (subst : Subst) :
    Except PyErr PyV :=
  match data with
  | .int k => subst.get_substitution k vid
  | .vlist xs => do
    let xs' ← undo_subst_list vid xs subst
    .ok (.vlist xs')
  | .vtup xs => do
    let xs' ← undo_subst_list vid xs subst
    .ok (.vtup xs')
  | .vdict d => do
    let d' ← undo_subst_dict vid d subst
    .ok (.vdict d')
  | _ => .ok data

def undo_subst_list (vid : Int) (xs : PyVList) (subst : Subst) :
    Except PyErr PyVList :=
  match xs with
  | .nil => .ok .nil
  | .cons x rest => do
    let x' ← undo_subst vid x subst
    let rest' ← undo_subst_list vid rest subst
    .ok (.cons x' rest')

def undo_subst_dict (vid : Int) (d : PyVDict) (subst : Subst) :
    Except PyErr PyVDict :=
  match d with
  | .nil => .ok .nil
  | .cons k v rest => do
    let v' ← undo_subst vid v subst
    let rest' ← undo_subst_dict vid rest subst
    .ok (.cons k v' rest')
end

/-- The record objects `gdbmiarec.py` consumes: the type tag and the data
attribute read and written by `_aggregate_record` (`results` for result
records, `output` for async records, `string` for stream records). -/
structure ARecord where
  record_type : Option String := none
  results : PyV := .vdict .nil
  output : PyV := .vdict .nil
  string : PyV := .str ""
deriving DecidableEq

/-- `_aggregate_record` (lines 345-378): select the data attribute by
record type, substitute in place, write the substituted data back into
*the same record object*, and add `vid` when nothing was substituted.
The returned record is the argument record, mutated. -/
def _aggregate_record (record : ARecord) (vid : Int) :
    Except PyErr (Option ARecord × Option Subst) :=
  let dataOf : Option PyV :=
    if record.record_type = some "RESULT" then some record.results
    else if record.record_type = some "EXEC" ∨
            record.record_type = some "STATUS" ∨
            record.record_type = some "NOTIFY" then some record.output
    else if record.record_type = some "CONSOLE" ∨
            record.record_type = some "TARGET" ∨
            record.record_type = some "LOG" then some record.string
    else none
  match dataOf with
  | none => .ok (none, none)
  | some data => do
    let (data', subst') ← do_subst vid data (some {})
    let newdata := data'.getD .pynone
    let record :=
      if record.record_type = some "RESULT" then
        { record with results := newdata }
      else if record.record_type = some "EXEC" ∨
              record.record_type = some "STATUS" ∨
              record.record_type = some "NOTIFY" then
        { record with output := newdata }
      else { record with string := newdata }
    match subst' with
    | none => .error (.attributeError "substitutions")
    | some s => do
      let s ← if s.substitutions.length = 0 then s.add_id vid
              else .ok s
      .ok (some record, some s)

/-- `GDBMIAggregatedRecord` holds the (mutated) record and its
substitution structure. -/
structure AggRec where
  record : Option ARecord
  substitutions : Option Subst

/-- `GDBMIAggregatedRecord.__init__`. -/
def AggRec.mk_from (record : ARecord) (vid : Int) :
    Except PyErr AggRec := do
  let (r, s) ← _aggregate_record record vid
  .ok ⟨r, s⟩

/-- `GDBMIAggregatedRecord.get_record` (lines 427-436): deep-copy the
stored record and substitute the values for `vid` back in. -/
def AggRec.get_record (g : AggRec) (vid : Int) : Except PyErr ARecord := do
  let rec ←
    match g.record with
    | some r => pure r
    | none => throw (.attributeError "record_type")
  let subst ←
    match g.substitutions with
    | some s => pure s
    | none => throw (.attributeError "get_substitution")
  if rec.record_type = some "RESULT" then do
    let d ← undo_subst vid rec.results subst
    .ok { rec with results := d }
  else if rec.record_type = some "EXEC" ∨
          rec.record_type = some "STATUS" ∨
          rec.record_type = some "NOTIFY" then do
    let d ← undo_subst vid rec.output subst
    .ok { rec with output := d }
  else if rec.record_type = some "CONSOLE" ∨
          rec.record_type = some "TARGET" ∨
          rec.record_type = some "LOG" then do
    let d ← undo_subst vid rec.string subst
    .ok { rec with string := d }
  else .ok rec

/-! ### C1: merge tallies -/

/-- One aggregated substitution slot of `A`: ranks `{0,1,2}` (one stored
interval tuple), default `"a"`, no overrides. -/
def c1SubstA : Subst :=
  { substitutions := [(0, (.str "a", []))], cur_subst_key := 1,
    ids := some [(0, 2)] }

/-- One aggregated substitution slot of `B`: ranks `{5,7}` (two stored
interval tuples), default `"b"`, no overrides. -/
def c1SubstB : Subst :=
  { substitutions := [(0, (.str "b", []))], cur_subst_key := 1,
    ids := some [(5, 5), (7, 7)] }

/-- The per-value tally the claim prescribes for merging `A ⊕ B`:
`count(default) = |ranks| − |overrides|` for each side (with `|ranks|`
the *number of ranks*), plus per-value counts across both override
maps. -/
def claimTally (defA : PyV) (idsA : List (Int × Int))
    (ovA : List (Int × PyV)) (defB : PyV) (idsB : List (Int × Int))
    (ovB : List (Int × PyV)) (v : PyV) : Int :=
  (if pyEq defA v then intervalCount idsA - ovA.length else 0) +
  (if pyEq defB v then intervalCount idsB - ovB.length else 0) +
  ((ovA.filter (fun p => pyEq p.2 v)).length : Int) +
  ((ovB.filter (fun p => pyEq p.2 v)).length : Int)

/-- **C1.** `merge_substitution` does not compute the claim's tallies:
with `A = ({0,1,2}, default "a")` and `B = ({5,7}, default "b")` the
claim's tallies are `"a" ↦ 3`, `"b" ↦ 2`, so the merged default must be
`"a"`; but the code counts `len(self.ids)` — `Interval.__len__`, the
number of stored interval *tuples* (1 for `{0,1,2}`, 2 for `{5,7}`) —
so it keeps `"b"` as the default and moves all three ranks of `A` into
the override map. -/
theorem C1_merge_tally_code_bug :
    mergeSubstitution c1SubstA c1SubstB 0 0 =
      .ok (.str "b", [(0, .str "a"), (1, .str "a"), (2, .str "a")]) ∧
    claimTally (.str "a") [(0, 2)] [] (.str "b") [(5, 5), (7, 7)] []
      (.str "a") = 3 ∧
    claimTally (.str "a") [(0, 2)] [] (.str "b") [(5, 5), (7, 7)] []
      (.str "b") = 2 :=
  ⟨rfl, rfl, rfl⟩

/-! ### C9: records are mutated by aggregation -/

/-- **C9, counterexample.** Building a single-rank aggregated record
mutates the parser's record in place: for the stream record with string
data `"hello"` observed at rank 0, `_aggregate_record` replaces the
record's `string` attribute by the substitution key `0` (a Python int),
which differs from the parser-produced `"hello"`. -/
theorem C9_counterexample_record_mutated :
    _aggregate_record { record_type := some "CONSOLE",
                        string := .str "hello" } 0 =
      .ok (some { record_type := some "CONSOLE", string := .int 0 },
           some { substitutions := [(0, (.str "hello", []))],
                  cur_subst_key := 1, ids := some [(0, 0)] }) ∧
    (PyV.int 0) ≠ (PyV.str "hello") :=
  ⟨rfl, by decide⟩

/-! ### C9, amended: reconstruction restores the original data -/

mutual
/-- Data as the parser produces it: no Python ints (substitution keys)
and no `None` anywhere. -/
def keyFreeV : PyV → Bool
  | .str _ => true
  | .int _ => false
  | .pynone => false
  | .vlist xs => keyFreeL xs
  | .vtup xs => keyFreeL xs
  | .vdict d => keyFreeD d
def keyFreeL : PyVList → Bool
  | .nil => true
  | .cons x xs => keyFreeV x && keyFreeL xs
def keyFreeD : PyVDict → Bool
  | .nil => true
  | .cons _ v d => keyFreeV v && keyFreeD d
end

/-- `s'` extends `s`: keys below `s.cur_subst_key` keep their entries. -/
def SubExt (s s' : Subst) : Prop :=
  s.cur_subst_key ≤ s'.cur_subst_key ∧
  ∀ k, k < s.cur_subst_key →
    sLookup s'.substitutions k = sLookup s.substitutions k

lemma SubExt.refl (s : Subst) : SubExt s s := ⟨le_rfl, fun _ _ => rfl⟩

lemma SubExt.trans {a b c : Subst} (h1 : SubExt a b) (h2 : SubExt b c) :
    SubExt a c :=
  ⟨le_trans h1.1 h2.1,
   fun k hk => (h2.2 k (lt_of_lt_of_le hk h1.1)).trans (h1.2 k hk)⟩

/-- The id interval of a single-rank substitution. -/
def IdsInv (vid : Int) (s : Subst) : Prop :=
  s.ids = none ∨ s.ids = some [(vid, vid)]

lemma sLookup_sSet_self :
    ∀ (subs : List (Nat × (PyV × List (Int × PyV)))) (key : Nat)
      (v : PyV × List (Int × PyV)), sLookup (sSet subs key v) key = some v := by
  intro subs key v
  induction subs with
  | nil => simp [sSet, sLookup]
  | cons p rest ih =>
    by_cases h : p.1 = key
    · simp [sSet, sLookup, h]
    · simp only [sSet, sLookup]
      rw [if_neg h, sLookup, if_neg h]
      exact ih

lemma sLookup_sSet_ne :
    ∀ (subs : List (Nat × (PyV × List (Int × PyV)))) (key k : Nat)
      (v : PyV × List (Int × PyV)), k ≠ key →
      sLookup (sSet subs key v) k = sLookup subs k := by
  intro subs key k v hne
  induction subs with
  | nil =>
    simp only [sSet, sLookup]
    rw [if_neg (fun h => hne h.symm)]
  | cons p rest ih =>
    by_cases h : p.1 = key
    · simp only [sSet]
      rw [if_pos h, sLookup, sLookup]
      have : ¬ p.1 = k := by rw [h]; exact fun hh => hne hh.symm
      rw [if_neg this, if_neg (h ▸ this)]
    · simp only [sSet]
      rw [if_neg h, sLookup, sLookup]
      by_cases h2 : p.1 = k
      · rw [if_pos h2, if_pos h2]
      · rw [if_neg h2, if_neg h2]
        exact ih

lemma in_interval_singleton (v : Int) : in_interval [(v, v)] v = true := by
  simp [in_interval, bsearchGo]

/-- Under the single-rank invariant, `updateIds` succeeds and pins the
interval to `[(vid, vid)]`. -/
lemma updateIds_ok (s : Subst) (vid : Int) (hi : IdsInv vid s) :
    s.updateIds vid = .ok { s with ids := some [(vid, vid)] } := by
  rcases hi with h | h
  · unfold Subst.updateIds Subst.idsFalsy
    rw [h]
    rfl
  · unfold Subst.updateIds Subst.idsFalsy
    rw [h]
    simp only [List.isEmpty_cons, Bool.false_eq_true, if_false,
               in_interval_singleton, if_true]
    cases s
    simp_all

/-- Under the single-rank invariant, `add_substitution` succeeds with the
fresh key and the extended table. -/
lemma add_substitution_ok (s : Subst) (v : PyV) (vid : Int)
    (hi : IdsInv vid s) :
    s.add_substitution v vid =
      .ok (s.cur_subst_key,
           { substitutions := sSet s.substitutions s.cur_subst_key (v, []),
             cur_subst_key := s.cur_subst_key + 1,
             ids := some [(vid, vid)] }) := by
  unfold Subst.add_substitution
  have hi2 : IdsInv vid
      { s with cur_subst_key := s.cur_subst_key + 1,
               substitutions := sSet s.substitutions s.cur_subst_key
                 (v, []) } := hi
  dsimp only
  rw [updateIds_ok _ vid hi2]
  rfl

/-- A substituted primitive leaf: the fresh key is recorded and undoing
through any extension of the resulting table restores the value. -/
lemma do_subst_prim (vid : Int) (d : PyV) (s : Subst)
    (hp : _is_primitive d = true) (hi : IdsInv vid s) :
    ∃ s', do_subst vid d (some s) =
        .ok (some (.int s.cur_subst_key), some s') ∧
      IdsInv vid s' ∧ SubExt s s' ∧
      ∀ t, SubExt s' t →
        undo_subst vid (.int s.cur_subst_key) t = .ok d := by
  refine ⟨{ substitutions := sSet s.substitutions s.cur_subst_key (d, []),
            cur_subst_key := s.cur_subst_key + 1,
            ids := some [(vid, vid)] }, ?_, Or.inr rfl, ?_, ?_⟩
  · cases d with
    | str v =>
      rw [do_subst, if_pos hp] <;> try (intro _ h; exact PyV.noConfusion h)
      simp only [bind, Except.bind]
      rw [add_substitution_ok s _ vid hi]
    | int n => exact absurd hp (by simp [_is_primitive])
    | pynone => exact absurd hp (by simp [_is_primitive])
    | vlist xs =>
      rw [do_subst, if_pos hp] <;> try (intro _ h; exact PyV.noConfusion h)
      simp only [bind, Except.bind]
      rw [add_substitution_ok s _ vid hi]
    | vtup xs =>
      rw [do_subst, if_pos hp] <;> try (intro _ h; exact PyV.noConfusion h)
      simp only [bind, Except.bind]
      rw [add_substitution_ok s _ vid hi]
    | vdict xs => exact absurd hp (by simp [_is_primitive])
  · exact ⟨Nat.le_succ _,
      fun k hk => sLookup_sSet_ne _ _ _ _ (Nat.ne_of_lt hk)⟩
  · intro t ht
    rw [undo_subst]
    unfold Subst.get_substitution
    rw [if_neg (by omega : ¬ ((s.cur_subst_key : Int) < 0))]
    have hkey : ((s.cur_subst_key : Int)).toNat = s.cur_subst_key :=
      Int.toNat_natCast _
    rw [hkey, ht.2 s.cur_subst_key (Nat.lt_succ_self _),
        sLookup_sSet_self]
    rfl

mutual
lemma do_subst_rt (vid : Int) (d : PyV) (s : Subst)
    (hk : keyFreeV d = true) (hi : IdsInv vid s) :
    ∃ d' s', do_subst vid d (some s) = .ok (some d', some s') ∧
      IdsInv vid s' ∧ SubExt s s' ∧
      ∀ t, SubExt s' t → undo_subst vid d' t = .ok d := by
  by_cases hp : _is_primitive d = true
  · obtain ⟨s', h1, h2, h3, h4⟩ := do_subst_prim vid d s hp hi
    exact ⟨.int s.cur_subst_key, s', h1, h2, h3, h4⟩
  · cases d with
    | str v => exact absurd rfl hp
    | int n => exact absurd hk (by simp [keyFreeV])
    | pynone => exact absurd hk (by simp [keyFreeV])
    | vlist xs =>
      obtain ⟨xs', s', h1, h2, h3, h4⟩ :=
        do_subst_list_rt vid xs s (by simpa [keyFreeV] using hk) hi
      refine ⟨.vlist xs', s', ?_, h2, h3, ?_⟩
      · rw [do_subst, if_neg hp]
        simp only [bind, Except.bind]
        rw [h1]
      · intro t ht
        rw [undo_subst]
        simp only [bind, Except.bind]
        rw [h4 t ht]
    | vtup xs =>
      obtain ⟨xs', s', h1, h2, h3, h4⟩ :=
        do_subst_list_rt vid xs s (by simpa [keyFreeV] using hk) hi
      refine ⟨.vtup xs', s', ?_, h2, h3, ?_⟩
      · rw [do_subst, if_neg hp]
        simp only [bind, Except.bind]
        rw [h1]
      · intro t ht
        rw [undo_subst]
        simp only [bind, Except.bind]
        rw [h4 t ht]
    | vdict xs =>
      obtain ⟨xs', s', h1, h2, h3, h4⟩ :=
        do_subst_dict_rt vid xs s (by simpa [keyFreeV] using hk) hi
      refine ⟨.vdict xs', s', ?_, h2, h3, ?_⟩
      · rw [do_subst, if_neg hp]
        simp only [bind, Except.bind]
        rw [h1]
      · intro t ht
        rw [undo_subst]
        simp only [bind, Except.bind]
        rw [h4 t ht]

lemma do_subst_list_rt (vid : Int) (xs : PyVList) (s : Subst)
    (hk : keyFreeL xs = true) (hi : IdsInv vid s) :
    ∃ xs' s', do_subst_list vid xs (some s) = .ok (xs', some s') ∧
      IdsInv vid s' ∧ SubExt s s' ∧
      ∀ t, SubExt s' t → undo_subst_list vid xs' t = .ok xs := by
  cases xs with
  | nil =>
    exact ⟨.nil, s, rfl, hi, SubExt.refl s, fun t _ => rfl⟩
  | cons x rest =>
    have hk2 := hk
    rw [keyFreeL, Bool.and_eq_true] at hk2
    obtain ⟨x', s1, hx, hi1, he1, hu1⟩ := do_subst_rt vid x s hk2.1 hi
    obtain ⟨rest', s2, hrest, hi2, he2, hu2⟩ :=
      do_subst_list_rt vid rest s1 hk2.2 hi1
    refine ⟨.cons x' rest', s2, ?_, hi2, he1.trans he2, ?_⟩
    · rw [do_subst_list]
      simp only [bind, Except.bind]
      rw [hx]
      simp only []
      rw [hrest]
      rfl
    · intro t ht
      rw [undo_subst_list]
      simp only [bind, Except.bind]
      rw [hu1 t (he2.trans ht), hu2 t ht]

lemma do_subst_dict_rt (vid : Int) (xs : PyVDict) (s : Subst)
    (hk : keyFreeD xs = true) (hi : IdsInv vid s) :
    ∃ xs' s', do_subst_dict vid xs (some s) = .ok (xs', some s') ∧
      IdsInv vid s' ∧ SubExt s s' ∧
      ∀ t, SubExt s' t → undo_subst_dict vid xs' t = .ok xs := by
  cases xs with
  | nil =>
    exact ⟨.nil, s, rfl, hi, SubExt.refl s, fun t _ => rfl⟩
  | cons k v rest =>
    have hk2 := hk
    rw [keyFreeD, Bool.and_eq_true] at hk2
    obtain ⟨v', s1, hv, hi1, he1, hu1⟩ := do_subst_rt vid v s hk2.1 hi
    obtain ⟨rest', s2, hrest, hi2, he2, hu2⟩ :=
      do_subst_dict_rt vid rest s1 hk2.2 hi1
    refine ⟨.cons k v' rest', s2, ?_, hi2, he1.trans he2, ?_⟩
    · rw [do_subst_dict]
      simp only [bind, Except.bind]
      rw [hv]
      simp only []
      rw [hrest]
      rfl
    · intro t ht
      rw [undo_subst_dict]
      simp only [bind, Except.bind]
      rw [hu1 t (he2.trans ht), hu2 t ht]
end

/-- The data attribute `_aggregate_record` reads, as an observer. -/
def ARecord.aggData (r : ARecord) : Option PyV :=
  if r.record_type = some "RESULT" then some r.results
  else if r.record_type = some "EXEC" ∨ r.record_type = some "STATUS" ∨
          r.record_type = some "NOTIFY" then some r.output
  else if r.record_type = some "CONSOLE" ∨ r.record_type = some "TARGET" ∨
          r.record_type = some "LOG" then some r.string
  else none

/-- The `if len(subst.substitutions) == 0: subst.add_id(vid)` step keeps
the substitution table (only `ids` may change). -/
lemma finalize_subst (s' : Subst) (vid : Int) (hi : IdsInv vid s') :
    ∃ s'', (if s'.substitutions.length = 0 then s'.add_id vid
            else .ok s') = (.ok s'' : Except PyErr Subst) ∧
      SubExt s' s'' := by
  by_cases h : s'.substitutions.length = 0
  · rw [if_pos h]
    unfold Subst.add_id
    exact ⟨_, updateIds_ok s' vid hi, le_rfl, fun _ _ => rfl⟩
  · rw [if_neg h]
    exact ⟨s', rfl, SubExt.refl s'⟩

/-- **C9, amended.** Aggregation mutates the record (its leaf data become
substitution keys, see the counterexample), but reconstruction is exact:
for every record with parser-shaped (key-free) data and every rank `vid`,
building the single-rank aggregated record succeeds and
`get_record(vid)` returns a record equal to the original one. -/
theorem C9_get_record_restores_original (rec : ARecord) (vid : Int)
    (d : PyV) (hd : rec.aggData = some d) (hk : keyFreeV d = true) :
    ∃ g : AggRec, AggRec.mk_from rec vid = .ok g ∧
      g.get_record vid = .ok rec := by
  obtain ⟨rt, res, outp, strg⟩ := rec
  unfold ARecord.aggData at hd
  dsimp only at hd
  by_cases h1 : rt = some "RESULT"
  · subst h1
    rw [if_pos rfl] at hd
    have hdd : res = d := Option.some.inj hd
    rw [← hdd] at hk
    obtain ⟨d', s', hds, hi', hext, hundo⟩ :=
      do_subst_rt vid res {} hk (Or.inl rfl)
    obtain ⟨s'', hfin, hext2⟩ := finalize_subst s' vid hi'
    refine ⟨⟨some ⟨some "RESULT", d', outp, strg⟩, some s''⟩, ?_, ?_⟩
    · unfold AggRec.mk_from _aggregate_record
      simp only [reduceIte, bind, Except.bind]
      rw [hds]
      simp only [reduceIte, Option.getD]
      by_cases hlen : s'.substitutions.length = 0
      · rw [if_pos hlen] at hfin ⊢
        rw [hfin]
      · rw [if_neg hlen] at hfin ⊢
        cases hfin
        rfl
    · unfold AggRec.get_record
      simp only [pure, Except.pure, bind, Except.bind, reduceIte]
      rw [hundo s'' hext2]
  · rw [if_neg h1] at hd
    by_cases h2 : rt = some "EXEC" ∨ rt = some "STATUS" ∨
        rt = some "NOTIFY"
    · rw [if_pos h2] at hd
      have hdd : outp = d := Option.some.inj hd
      rw [← hdd] at hk
      obtain ⟨d', s', hds, hi', hext, hundo⟩ :=
        do_subst_rt vid outp {} hk (Or.inl rfl)
      obtain ⟨s'', hfin, hext2⟩ := finalize_subst s' vid hi'
      refine ⟨⟨some ⟨rt, res, d', strg⟩, some s''⟩, ?_, ?_⟩
      · unfold AggRec.mk_from _aggregate_record
        try dsimp only
        rw [if_neg h1, if_pos h2]
        simp only [bind, Except.bind]
        rw [hds]
        try dsimp only [Option.getD]
        rw [if_neg h1, if_pos h2]
        by_cases hlen : s'.substitutions.length = 0
        · rw [if_pos hlen] at hfin ⊢
          rw [hfin]
        · rw [if_neg hlen] at hfin ⊢
          cases hfin
          rfl
      · unfold AggRec.get_record
        simp only [pure, Except.pure, bind, Except.bind]
        try dsimp only
        rw [if_neg h1, if_pos h2]
        rw [hundo s'' hext2]
    · rw [if_neg h2] at hd
      by_cases h3 : rt = some "CONSOLE" ∨ rt = some "TARGET" ∨
          rt = some "LOG"
      · rw [if_pos h3] at hd
        have hdd : strg = d := Option.some.inj hd
        rw [← hdd] at hk
        obtain ⟨d', s', hds, hi', hext, hundo⟩ :=
          do_subst_rt vid strg {} hk (Or.inl rfl)
        obtain ⟨s'', hfin, hext2⟩ := finalize_subst s' vid hi'
        refine ⟨⟨some ⟨rt, res, outp, d'⟩, some s''⟩, ?_, ?_⟩
        · unfold AggRec.mk_from _aggregate_record
          try dsimp only
          rw [if_neg h1, if_neg h2, if_pos h3]
          simp only [bind, Except.bind]
          rw [hds]
          try dsimp only [Option.getD]
          rw [if_neg h1, if_neg h2]
          by_cases hlen : s'.substitutions.length = 0
          · rw [if_pos hlen] at hfin ⊢
            rw [hfin]
          · rw [if_neg hlen] at hfin ⊢
            cases hfin
            rfl
        · unfold AggRec.get_record
          simp only [pure, Except.pure, bind, Except.bind]
          try dsimp only
          rw [if_neg h1, if_neg h2, if_pos h3]
          rw [hundo s'' hext2]
      · rw [if_neg h3] at hd
        exact absurd hd (by simp)

/-- Witness for `C9_get_record_restores_original` at a concrete result
record with data `{"x": "1"}` and rank 3. -/
theorem C9_get_record_restores_original_witness :
    (ARecord.aggData { record_type := some "RESULT",
                       results := .vdict (.cons "x" (.str "1") .nil) } =
      some (.vdict (.cons "x" (.str "1") .nil))) ∧
    keyFreeV (.vdict (.cons "x" (.str "1") .nil)) = true ∧
    ∃ g : AggRec,
      AggRec.mk_from { record_type := some "RESULT",
                       results := .vdict (.cons "x" (.str "1") .nil) } 3 =
        .ok g ∧
      g.get_record 3 =
        .ok { record_type := some "RESULT",
              results := .vdict (.cons "x" (.str "1") .nil) } :=
  ⟨rfl, rfl,
   C9_get_record_restores_original
     { record_type := some "RESULT",
       results := .vdict (.cons "x" (.str "1") .nil) } 3
     (.vdict (.cons "x" (.str "1") .nil)) rfl rfl⟩

/-! ## Communicator message compression (src/pgdb/src/comm.py)

Serialized messages are byte strings, modelled as `List Nat`.  `MSG_TAG`
is defined in `src/pgdb/src/gdb_shared.py` (`MSG_TAG = 3141`);
`compress_threshold` in `src/pgdb/src/conf/gdbconf.py`.  The name
`COMP_TAG` referenced by `_compress_msg` (comm.py line 173) and `_recv`
(comm.py line 218) is not defined anywhere in the sources (`gdb_shared.py`
defines only `MSG_TAG` and the message-type constants), so evaluating it
raises `NameError`.  `zlib.compress` is an external library function and
is taken as a parameter; the theorems quantify over it, which shows the
results do not depend on its behaviour. -/

def MSG_TAG : Nat := 3141

def compress_threshold : Nat := 10240

/-- `Communicator._compress_msg` body (comm.py lines 162-174): `tag =
MSG_TAG`; when `len(msg) >= gdbconf.compress_threshold`, the interpreter
computes `zlib.compress(msg, 1)`, rebinds the local `msg`, and then the
next statement `tag = COMP_TAG` raises `NameError` because `COMP_TAG` is
undefined; below the threshold it returns `msg, tag` unchanged.  (The
method is also declared without `self` on comm.py line 162, so the bound
call `self._compress_msg(msg)` in `send` raises `TypeError` before this
body even runs; the body is modelled as if it were called unbound.) -/
def compress_msg (zcompress : List Nat → List Nat) (msg : List Nat) :
    Except PyErr (List Nat × Nat) :=
  let tag := MSG_TAG
  if msg.length ≥ compress_threshold then
    let _msg := zcompress msg
    .error (.nameError "COMP_TAG")
  else
    .ok (msg, tag)

/-- The decode tail of `Communicator._recv` (comm.py lines 218-220): after
unpacking `serialized`, the test `if tag==COMP_TAG` evaluates the
undefined global `COMP_TAG` and raises `NameError` for every frame, so
the receive path never reaches `cPickle.loads`.  (Even if `COMP_TAG` were
defined, the branch body is `msg = zlib.decompress(msg)`, which reads the
local `msg` before any assignment to it — `UnboundLocalError` — and the
following `msg = cPickle.loads(serialized)` deserializes `serialized`,
the still-compressed bytes.) -/
def recv_decode (tag : Nat) (serialized : List Nat) : Except PyErr (List Nat) :=
  let _ := (tag, serialized)
  .error (.nameError "COMP_TAG")

/-- C6: code_bug — compression never round-trips through send/receive.
For every model of `zlib.compress`: a message shorter than
`compress_threshold` is returned unchanged with `MSG_TAG`, but a message
of threshold size makes `_compress_msg` raise `NameError` (undefined
`COMP_TAG`) instead of framing a compressed payload, and the decode path
of `_recv` raises the same `NameError` on every frame before any
decompression or deserialization happens. -/
theorem C6_compression_roundtrip_code_bug :
    ∀ zcompress : List Nat → List Nat,
      compress_msg zcompress (List.replicate 10239 0) =
        .ok (List.replicate 10239 0, MSG_TAG) ∧
      compress_msg zcompress (List.replicate 10240 0) =
        .error (.nameError "COMP_TAG") ∧
      (∀ tag serialized, recv_decode tag serialized =
        .error (.nameError "COMP_TAG")) := by
  intro zcompress
  refine ⟨?_, ?_, fun _ _ => rfl⟩
  · unfold compress_msg
    dsimp only
    rw [List.length_replicate, if_neg (by decide : ¬ (10239 ≥ compress_threshold))]
  · unfold compress_msg
    dsimp only
    rw [List.length_replicate, if_pos (by decide : (10240 : Nat) ≥ compress_threshold)]

/-! ## SBD load-file policy (src/pgdb/src/sbd.py)

File paths are character lists.  `os.path.abspath`, `os.path.normpath`
and `os.path.basename` are the POSIX implementations of the Python 2.7
standard library, transcribed from `posixpath.py`; the working directory
of the back-end process is passed explicitly as `cwd`.  The shared-memory
region written with `struct.pack_into`/read with `struct.unpack_from` is
modelled by its four fields (the PGDB-wrote flag at offset 0, the
GDB-wrote flag at offset 1, the 32-bit size at offset 2, and the data
from offset 6; the extra null byte `write_memory` packs after the data is
not represented).  The POSIX semaphore is a counter; `acquire(0)` raising
`posix_ipc.BusyError` is the zero-counter early return. -/

/-- Python `s.split(c)` for a one-character separator (keeps empty
pieces; splitting the empty string gives one empty piece). -/
def splitOnChar (c : Char) : List Char → List (List Char)
  | [] => [[]]
  | x :: xs =>
    match splitOnChar c xs with
    | r :: rs => if x = c then [] :: r :: rs else (x :: r) :: rs
    | [] => [[x]]

/-- `posixpath.normpath` (Python 2.7): drop empty and `.` components,
resolve `..`, and preserve up to two leading slashes. -/
def posixNormpath (path : List Char) : List Char :=
  if path = [] then ['.']
  else
    let initial_slashes : Nat :=
      if path.take 1 = ['/'] then
        if path.take 2 = ['/', '/'] ∧ ¬ path.take 3 = ['/', '/', '/'] then 2 else 1
      else 0
    let comps := splitOnChar '/' path
    let new_comps := comps.foldl (fun acc comp =>
      if comp = [] ∨ comp = ['.'] then acc
      else if ¬ comp = ['.', '.'] ∨ (initial_slashes = 0 ∧ acc = []) ∨
              (¬ acc = [] ∧ acc.getLast? = some ['.', '.']) then
        acc ++ [comp]
      else if ¬ acc = [] then acc.dropLast
      else acc) []
    let joined := List.replicate initial_slashes '/' ++
      (new_comps.intersperse ['/']).flatten
    if joined = [] then ['.'] else joined

/-- `posixpath.join` for two operands, as used by `abspath`. -/
def posixJoin (cwd path : List Char) : List Char :=
  if path.take 1 = ['/'] then path
  else if cwd = [] ∨ cwd.getLast? = some '/' then cwd ++ path
  else cwd ++ ['/'] ++ path

/-- `os.path.abspath` on POSIX: join with the working directory when the
path is relative, then normalize. -/
def posixAbspath (cwd path : List Char) : List Char :=
  posixNormpath (posixJoin cwd path)

/-- `os.path.basename` on POSIX: everything after the last slash. -/
def posixBasename (p : List Char) : List Char :=
  ((splitOnChar '/' p).getLast?).getD []

/-- Python `s[-n:]` for `n ≥ 1`: the last `n` characters, or all of them
when the string is shorter (truncated subtraction gives `drop 0`). -/
def sSuffix (s : List Char) (n : Nat) : List Char := s.drop (s.length - n)

/-- `SBDBE.load_file_check` (sbd.py lines 129-143).  `load_file_re` is
`re.compile(r".*\.so.*")` and `re.match` anchors only at the start, so
the test on the basename succeeds exactly when it contains ".so".
`load_file_bins` is the `set_executable_names` set. -/
def load_file_check (cwd : List Char) (load_file_bins : List (List Char))
    (filename : List Char) : Bool :=
  if posixBasename (posixAbspath cwd filename) ∈ load_file_bins then true
  else if sSuffix (posixBasename (posixAbspath cwd filename)) 4 = ".gdb".toList ∨
          sSuffix (posixBasename (posixAbspath cwd filename)) 3 = ".py".toList then false
  else if (posixAbspath cwd filename).take 6 = "/lib64".toList then false
  else if ".so".toList <:+: posixBasename (posixAbspath cwd filename) then true
  else false

/-- The shared-memory region between the back-end and its GDB process. -/
structure SBDMem where
  pgdb_flag : Nat := 0
  gdb_flag : Nat := 0
  size : Nat := 0
  data : List Char := []
deriving DecidableEq, Repr

/-- Mutable state of `SBDBE` touched by `sbd_check`: the shared memory,
the semaphore counter, the `load_files` cache (`none` meaning the Python
`None` placeholder for in-flight requests), the current load file, and
the filenames of the `LOAD_FILE` requests sent to the front-end. -/
structure SBDState where
  mem : SBDMem
  semaphore : Nat
  load_files : List (List Char × Option (List Char)) := []
  current_load_file : Option (List Char) := none
  sent_load_requests : List (List Char) := []
deriving DecidableEq, Repr

def lfLookup : List (List Char × Option (List Char)) → List Char →
    Option (Option (List Char))
  | [], _ => none
  | (k, v) :: xs, key => if k = key then some v else lfLookup xs key

def lfSet : List (List Char × Option (List Char)) → List Char →
    Option (List Char) → List (List Char × Option (List Char))
  | [], key, v => [(key, v)]
  | (k, w) :: xs, key, v =>
    if k = key then (k, v) :: xs else (k, w) :: lfSet xs key v

/-- `SBDBE.check_gdb_memory_flag` (sbd.py lines 145-148). -/
def check_gdb_memory_flag (m : SBDMem) : Bool := m.gdb_flag = 1

/-- `SBDBE.read_memory` (sbd.py lines 150-158): clear the GDB-wrote flag,
read the size field, return `False` (`none`) when the size is zero and
otherwise the `size` bytes at offset 6. -/
def read_memory (m : SBDMem) : SBDMem × Option (List Char) :=
  let m := { m with gdb_flag := 0 }
  if m.size = 0 then (m, none) else (m, some (m.data.take m.size))

/-- `SBDBE.write_memory` (sbd.py lines 160-167): set the PGDB-wrote flag
and write the size and the data. -/
def write_memory (m : SBDMem) (data : List Char) : SBDMem :=
  { m with pgdb_flag := 1, size := data.length, data := data }

/-- `SBDBE.file_data_respond` (sbd.py lines 169-178). -/
def file_data_respond (st : SBDState) (filename : List Char) : SBDState :=
  match lfLookup st.load_files filename with
  | none => st
  | some none => st
  | some (some data) => { st with mem := write_memory st.mem data }

/-- `SBDBE.load_file` (sbd.py lines 116-127): answer from the cache when
the file was already requested, otherwise record the request and send a
load-file message to the front-end.  (The `LOAD_FILE` message constant
the send references is absent from `gdb_shared.py` in this snapshot; the
send is modelled as recording the requested filename, which the claim
never exercises.) -/
def sbd_load_file (cwd : List Char) (st : SBDState) (filename : List Char) :
    SBDState :=
  let filename := posixAbspath cwd filename
  if (lfLookup st.load_files filename).isSome then
    let st := file_data_respond st filename
    { st with semaphore := st.semaphore + 1 }
  else
    { st with load_files := lfSet st.load_files filename none,
              current_load_file := some filename,
              sent_load_requests := st.sent_load_requests ++ [filename] }

/-- `SBDBE.sbd_check` (sbd.py lines 194-211): try a non-blocking
semaphore acquire; when the GDB-wrote flag is set, read the filename and
either forward a load-file request (policy accepted) or write the
`"error"` sentinel into the shared region and release the semaphore; an
unset flag just releases.  An empty or failed filename read is falsy, so
it also takes the `"error"` path. -/
def sbd_check (cwd : List Char) (load_file_bins : List (List Char))
    (st : SBDState) : SBDState :=
  if st.semaphore = 0 then st
  else
    let st := { st with semaphore := st.semaphore - 1 }
    if check_gdb_memory_flag st.mem then
      let (m, fname?) := read_memory st.mem
      let st := { st with mem := m }
      match fname? with
      | some fname =>
        if ¬ fname = [] ∧ load_file_check cwd load_file_bins fname then
          sbd_load_file cwd st fname
        else
          let st := { st with mem := write_memory st.mem "error".toList }
          { st with semaphore := st.semaphore + 1 }
      | none =>
        let st := { st with mem := write_memory st.mem "error".toList }
        { st with semaphore := st.semaphore + 1 }
    else
      { st with semaphore := st.semaphore + 1 }

/-- The shared region as GDB leaves it after writing the request for
`/etc/passwd`: GDB-wrote flag set, 11 bytes of data. -/
def c7ReqState : SBDState :=
  { mem := { pgdb_flag := 0, gdb_flag := 1, size := 11,
             data := "/etc/passwd".toList },
    semaphore := 1 }

theorem suffix_eq_sSuffix {t b : List Char} (h : t <:+ b) :
    b.drop (b.length - t.length) = t :=
  (List.suffix_iff_eq_drop.mp h).symm

/-- C7: a requested path whose basename ends in ".gdb" or ".py" and is
not among the known executable names is refused by `load_file_check`
(for every working directory and path), and `sbd_check` on a request for
`/etc/passwd` (refused because "passwd" is no known binary, has neither
suffix, is not under `/lib64`, and does not contain ".so") writes the
five-byte `"error"` sentinel into the shared region, sets the PGDB-wrote
flag, releases the semaphore, and forwards no load-file request. -/
theorem C7_load_file_policy (cwd : List Char) (bins : List (List Char))
    (filename : List Char)
    (hsuf : ".gdb".toList <:+ posixBasename (posixAbspath cwd filename) ∨
            ".py".toList <:+ posixBasename (posixAbspath cwd filename))
    (hbin : posixBasename (posixAbspath cwd filename) ∉ bins) :
    load_file_check cwd bins filename = false ∧
    sbd_check "/".toList ["a.out".toList] c7ReqState =
      { mem := { pgdb_flag := 1, gdb_flag := 0, size := 5,
                 data := "error".toList },
        semaphore := 1, load_files := [], current_load_file := none,
        sent_load_requests := [] } := by
  constructor
  · unfold load_file_check
    rw [if_neg hbin]
    rcases hsuf with h | h
    · rw [if_pos (Or.inl (show sSuffix (posixBasename (posixAbspath cwd filename)) 4 =
        ".gdb".toList from suffix_eq_sSuffix h))]
    · rw [if_pos (Or.inr (show sSuffix (posixBasename (posixAbspath cwd filename)) 3 =
        ".py".toList from suffix_eq_sSuffix h))]
  · rfl

/-- Witness for `C7_load_file_policy` at `cwd = "/"`, `bins = ["a.out"]`,
`filename = "x.py"`. -/
theorem C7_load_file_policy_witness :
    ((".gdb".toList <:+ posixBasename (posixAbspath "/".toList "x.py".toList) ∨
      ".py".toList <:+ posixBasename (posixAbspath "/".toList "x.py".toList)) ∧
     posixBasename (posixAbspath "/".toList "x.py".toList) ∉ ["a.out".toList]) ∧
    load_file_check "/".toList ["a.out".toList] "x.py".toList = false ∧
    sbd_check "/".toList ["a.out".toList] c7ReqState =
      { mem := { pgdb_flag := 1, gdb_flag := 0, size := 5,
                 data := "error".toList },
        semaphore := 1, load_files := [], current_load_file := none,
        sent_load_requests := [] } :=
  ⟨⟨Or.inr (by decide), by decide⟩,
   C7_load_file_policy "/".toList ["a.out".toList] "x.py".toList
     (Or.inr (by decide)) (by decide)⟩

/-! ## Variable objects and the varprint DFS
(src/mi/varobj.py, src/pgdb/src/gdbbe.py, src/pgdb/src/conf/gdbconf.py)

`VariableObject`s are mutable Python objects linked into a tree through
the `children` dicts; object identity is modelled by a heap `VOHeap`
addressed by numeric ids, and a `children` entry maps the short name to
the id of the child.  `VariableObjectManager.varobjs` maps root names to
ids.  Depths are `Int` where the code compares them (`sys.maxsize` and
`None` appear there); Python 2 orders every integer above `None`. -/

def varprint_max_depth : Int := 3

def varprint_max_children : Nat := 60

def sysMaxsize : Nat := 9223372036854775807

/-- Python `name.split(".")` (character-level so it evaluates by `rfl`). -/
def splitDotGo : List Char → List Char → List String
  | [], acc => [String.mk acc.reverse]
  | c :: cs, acc =>
    if c = '.' then String.mk acc.reverse :: splitDotGo cs []
    else splitDotGo cs (c :: acc)

def splitDot (s : String) : List String := splitDotGo s.toList []

/-- Python `".".join(parts)`. -/
def joinDot : List String → String
  | [] => ""
  | [p] => p
  | p :: rest => p ++ "." ++ joinDot rest

/-- The fields of `VariableObject` (varobj.py lines 14-34).  `is_dynamic`
and `has_more` default to Python `False`, modelled `none`; `num_child`
keeps the record value (a string for parsed records). -/
structure VarObjData where
  name : String
  vartype : Option PyV
  value : Option PyV := none
  children : List (String × Nat) := []
  thread_id : Option PyV := none
  display_hint : Option PyV := none
  is_dynamic : Option PyV := none
  has_more : Option PyV := none
  num_child : PyV := .int 0
  listed : Bool := false
  more_children : Bool := false
deriving DecidableEq

def cLookup : List (String × Nat) → String → Option Nat
  | [], _ => none
  | (k, v) :: xs, key => if k = key then some v else cLookup xs key

def cSet : List (String × Nat) → String → Nat → List (String × Nat)
  | [], key, v => [(key, v)]
  | (k, w) :: xs, key, v =>
    if k = key then (k, v) :: xs else (k, w) :: cSet xs key v

/-- Heap of variable objects: Python object identity becomes an id. -/
structure VOHeap where
  objs : List (Nat × VarObjData) := []
  next : Nat := 0
deriving DecidableEq

def hLookup : List (Nat × VarObjData) → Nat → Option VarObjData
  | [], _ => none
  | (k, v) :: xs, key => if k = key then some v else hLookup xs key

def hSet : List (Nat × VarObjData) → Nat → VarObjData → List (Nat × VarObjData)
  | [], key, v => [(key, v)]
  | (k, w) :: xs, key, v =>
    if k = key then (k, v) :: xs else (k, w) :: hSet xs key v

def VOHeap.get (h : VOHeap) (i : Nat) : Option VarObjData := hLookup h.objs i

def VOHeap.set (h : VOHeap) (i : Nat) (v : VarObjData) : VOHeap :=
  { h with objs := hSet h.objs i v }

def VOHeap.alloc (h : VOHeap) (v : VarObjData) : Nat × VOHeap :=
  (h.next, { objs := hSet h.objs h.next v, next := h.next + 1 })

def pseudochildren : List String := ["public", "protected", "private"]

/-- `VariableObject.get_name` (varobj.py lines 44-46). -/
def VarObjData.get_name (vo : VarObjData) : String :=
  ((splitDot vo.name).getLast?).getD ""

/-- `VariableObjectManager.is_pseudochild` (varobj.py lines 203-206). -/
def is_pseudochild (vo : VarObjData) : Bool :=
  pseudochildren.contains vo.get_name

/-- `VariableObjectManager.get_name_depth` (varobj.py lines 183-186). -/
def get_name_depth (name : String) : Nat := (splitDot name).length

/-- `VariableObjectManager.same_branch` (varobj.py lines 193-201). -/
def same_branch (name1 name2 : String) : Bool :=
  let p1 := (splitDot name1).filter (fun p => !(pseudochildren.contains p))
  let p2 := (splitDot name2).filter (fun p => !(pseudochildren.contains p))
  (p1.zip p2).all (fun q => q.1 == q.2)

/-- One arm of `get_child`: `pseudo in varobj.children and name in
varobj.children[pseudo].children`. -/
def pseudoLookup (h : VOHeap) (vo : VarObjData) (pseudo name : String) :
    Option Nat :=
  match cLookup vo.children pseudo with
  | none => none
  | some pid =>
    match h.get pid with
    | none => none
    | some pvo => cLookup pvo.children name

/-- `VariableObjectManager.get_child` (varobj.py lines 82-101). -/
def get_child (h : VOHeap) (objId : Nat) (name : String) : Option Nat :=
  match h.get objId with
  | none => none
  | some vo =>
    match cLookup vo.children name with
    | some c => some c
    | none =>
      match pseudoLookup h vo "public" name with
      | some c => some c
      | none =>
        match pseudoLookup h vo "protected" name with
        | some c => some c
        | none => pseudoLookup h vo "private" name

def getVarObjGo (h : VOHeap) : Nat → List String → Option Nat
  | objId, [] => some objId
  | objId, part :: rest =>
    match get_child h objId part with
    | none => none
    | some c => getVarObjGo h c rest

/-- `VariableObjectManager.get_var_obj` (varobj.py lines 103-117),
returning the heap id of the named object. -/
def get_var_obj (h : VOHeap) (varobjs : List (String × Nat)) (name : String) :
    Option Nat :=
  match splitDot name with
  | [] => none
  | root :: rest =>
    match cLookup varobjs root with
    | none => none
    | some objId => getVarObjGo h objId rest

def lowestAncestorGo (h : VOHeap) : Nat → List String → Nat
  | objId, [] => objId
  | objId, part :: rest =>
    match get_child h objId part with
    | none => objId
    | some c => lowestAncestorGo h c rest

/-- `VariableObjectManager.get_lowest_ancestor` (varobj.py lines
143-154). -/
def get_lowest_ancestor (h : VOHeap) (varobjs : List (String × Nat))
    (name : String) : Option Nat :=
  match splitDot name with
  | [] => none
  | root :: rest =>
    match cLookup varobjs root with
    | none => none
    | some objId => some (lowestAncestorGo h objId rest)

/-- `VariableObjectManager.add_var_obj` (varobj.py lines 119-129): the
new object was already allocated in the heap at `newId`; link it into the
root map or into its parent and report success.  (The `none` fallbacks
for missing heap ids cannot occur for ids returned by `alloc`.) -/
def add_var_obj (h : VOHeap) (varobjs : List (String × Nat)) (newId : Nat) :
    (VOHeap × List (String × Nat)) × Bool :=
  match h.get newId with
  | none => ((h, varobjs), false)
  | some newVo =>
    match splitDot newVo.name with
    | [] => ((h, varobjs), false)
    | [_] => ((h, cSet varobjs newVo.name newId), true)
    | parts =>
      match get_var_obj h varobjs (joinDot parts.dropLast) with
      | some pid =>
        match h.get pid with
        | none => ((h, varobjs), false)
        | some pvo =>
          ((h.set pid { pvo with
              children := cSet pvo.children ((parts.getLast?).getD "") newId },
            varobjs), true)
      | none => ((h, varobjs), false)

/-- `VariableObjectManager.create_var_obj` (varobj.py lines 208-237):
`False` (`none`) when the record has no "name", `KeyError` when it has no
"numchild", else the new object with the optional fields from the record.
The model requires the name to be a string because it is later split on
"."; records built by the parser always satisfy this. -/
def create_var_obj (var : PyV) : Except PyErr (Option VarObjData) :=
  match var with
  | .vdict d =>
    if ¬ dContains d "name" then .ok none
    else
      let vartype := dLookup d "type"
      let value := if (dLookup d "type").isSome then dLookup d "value" else none
      let displayhint := dLookup d "displayhint"
      let dynamic := dLookup d "dynamic"
      let thread_id := dLookup d "thread-id"
      match dLookup d "name", dLookup d "numchild" with
      | some (.str nm), some nc =>
        .ok (some { name := nm, vartype := vartype, value := value,
                    thread_id := thread_id, display_hint := displayhint,
                    is_dynamic := dynamic, num_child := nc })
      | some _, some _ => .error (.typeError "variable object name")
      | _, none => .error (.keyError "numchild")
      | none, _ => .ok none
  | _ => .error (.typeError "argument is not a dict")

def hexDigitVal (c : Char) : Option Nat :=
  if '0' ≤ c ∧ c ≤ '9' then some (c.toNat - 48)
  else if 'a' ≤ c ∧ c ≤ 'f' then some (c.toNat - 87)
  else if 'A' ≤ c ∧ c ≤ 'F' then some (c.toNat - 55)
  else none

def digitsToNat (base : Nat) : List Char → Option Nat → Option Nat
  | [], acc => acc
  | c :: cs, acc =>
    match hexDigitVal c, acc with
    | some d, some a =>
      if d < base then digitsToNat base cs (some (a * base + d)) else none
    | _, _ => none

/-- Python 2 `int(s, 0)`: base auto-detection (`0x` hexadecimal, `0b`
binary, `0o` or a bare leading `0` octal, else decimal), optional sign
and surrounding whitespace; `ValueError` otherwise. -/
def pyIntBase0 (s : String) : Except PyErr Int :=
  let cs := pyStrip s.toList
  let (neg, cs) :=
    match cs with
    | '-' :: r => (true, r)
    | '+' :: r => (false, r)
    | r => (false, r)
  let val? : Option Nat :=
    match cs with
    | '0' :: 'x' :: r => if r = [] then none else digitsToNat 16 r (some 0)
    | '0' :: 'X' :: r => if r = [] then none else digitsToNat 16 r (some 0)
    | '0' :: 'b' :: r => if r = [] then none else digitsToNat 2 r (some 0)
    | '0' :: 'B' :: r => if r = [] then none else digitsToNat 2 r (some 0)
    | '0' :: 'o' :: r => if r = [] then none else digitsToNat 8 r (some 0)
    | '0' :: 'O' :: r => if r = [] then none else digitsToNat 8 r (some 0)
    | '0' :: r => digitsToNat 8 r (some 0)
    | [] => none
    | r => digitsToNat 10 r (some 0)
  match val? with
  | some n => .ok (if neg then -(n : Int) else (n : Int))
  | none => .error (.valueError "invalid literal for int with base 0")

/-- Truthiness of a field holding Python `False`/`None` (`none`) or a
value. -/
def optTruthy : Option PyV → Bool
  | none => false
  | some v => !pyFalsy v

/-- Python 2 `a > b` where `b` may be `None`: every integer is greater
than `None` in CPython 2. -/
def pyGtOptInt (a : Int) (b : Option Int) : Bool :=
  match b with
  | none => true
  | some n => a > n

/-- Python `v[:n]` (lists, tuples and strings slice; other types raise). -/
def pySliceTo (v : PyV) (n : Nat) : Except PyErr (List PyV) :=
  match v with
  | .vlist xs => .ok (xs.toList.take n)
  | .vtup xs => .ok (xs.toList.take n)
  | .str s => .ok ((s.toList.take n).map (fun c => .str (String.mk [c])))
  | _ => .error (.typeError "unhashable type")

/-- Python `v[i]` for a non-negative integer index. -/
def pyIdxNat (v : PyV) (i : Nat) : Except PyErr PyV :=
  match v with
  | .vlist xs =>
    match xs.toList[i]? with
    | some x => .ok x
    | none => .error .indexError
  | .vtup xs =>
    match xs.toList[i]? with
    | some x => .ok x
    | none => .error .indexError
  | .str s =>
    match s.toList[i]? with
    | some c => .ok (.str (String.mk [c]))
    | none => .error .indexError
  | _ => .error (.typeError "not subscriptable")

/-- A `VARPRINT_RES_MSG` sent to the front-end with `mrnet_stream_send`:
either a result carrying the heap id of the variable object sent, or an
error with its message text. -/
inductive SentMsg
  | result (objId : Nat)
  | errorMsg (msg : String)
deriving DecidableEq

/-- The values a `_list_handler` closure captures, i.e. the parameters the
queued `var_list_children` reply will pass to the next `varprint_dfs`. -/
structure ListParams where
  max_depth : Int
  max_children : Nat
  reset_maxes : Bool
  branch_depth : Option Int
  branch_name : Option String
deriving DecidableEq

/-- How a `varprint_dfs` invocation ends: `return True` on the error
paths inside the child loop, or falling through with possibly one queued
`var_list_children` command (the object name listed next and the
parameters of its handler). -/
inductive DFSNext
  | returnedTrue
  | fellThrough (request : Option (String × ListParams))
deriving DecidableEq

/-- The per-rank mutable state `varprint_dfs` touches: the variable
object heap, the manager root map `self.varobjs[rank]`, the stacks
`self.varprint_stacks`, the id counter `self.varprint_id`, and the
messages sent to the front-end. -/
structure VPState where
  heap : VOHeap
  varobjs : List (String × Nat)
  varprint_stacks : List (Nat × List (Nat × Nat))
  varprint_id : Nat
  sent : List SentMsg
deriving DecidableEq

def stLookup : List (Nat × List (Nat × Nat)) → Nat → Option (List (Nat × Nat))
  | [], _ => none
  | (k, v) :: xs, key => if k = key then some v else stLookup xs key

def stSet : List (Nat × List (Nat × Nat)) → Nat → List (Nat × Nat) →
    List (Nat × List (Nat × Nat))
  | [], key, v => [(key, v)]
  | (k, w) :: xs, key, v =>
    if k = key then (k, v) :: xs else (k, w) :: stSet xs key v

/-- The body of the `for child_tup in record.results["children"][:max_children]`
loop of `varprint_dfs` (gdbbe.py lines 420-452), returning the updated
state and whether the loop hit a `return True`.  `results` is carried for
the `len(record.results["children"]) > 128` re-check on line 448. -/
def dfsChildLoop (results : PyVDict) (v_id : Nat) (max_depth : Int)
    (branch_depth : Option Int) (branch_name : Option String)
    (parent_depth : Nat) :
    List PyV → VPState → Except PyErr (VPState × Bool)
  | [], st => .ok (st, false)
  | child_tup :: rest, st => do
    let child ← pyIdxNat child_tup 1
    let varobj? ← create_var_obj child
    match varobj? with
    | none => pure (st, true)
    | some vo =>
      let (newId, h) := st.heap.alloc vo
      let st := { st with heap := h }
      let ((h2, vmap), ok) := add_var_obj st.heap st.varobjs newId
      let st := { st with heap := h2, varobjs := vmap }
      if ¬ ok then pure (st, true)
      else do
        let nc ← pyToInt vo.num_child
        if nc > 0 ∨ optTruthy vo.is_dynamic then do
          let pd : Int := (parent_depth : Int)
          let branchTruthy : Bool :=
            match branch_name with
            | some bn => !bn.isEmpty
            | none => false
          let do1 : Bool :=
            if pd > max_depth then
              if branchTruthy ∧ same_branch vo.name (branch_name.getD "") then
                if pyGtOptInt pd branch_depth ∧ ¬ is_pseudochild vo then false
                else true
              else if ¬ is_pseudochild vo then false
              else true
            else true
          let nullPointer ←
            if optTruthy vo.vartype ∧ optTruthy vo.value then
              match vo.vartype with
              | some (.str tv) =>
                if tv.toList.getLast? = some '*' then
                  match vo.value with
                  | some (.str sval) =>
                    match pyIntBase0 sval with
                    | .ok n => pure (decide (n = 0))
                    | .error _ => pure false
                  | some _ => throw (.typeError "int argument")
                  | none => pure false
                else pure false
              | some _ => throw (.typeError "not subscriptable")
              | none => pure false
            else pure false
          let childrenVal ← dReq results "children"
          let clen ← pyLen childrenVal
          let do_listing := do1 ∧ ¬ nullPointer ∧ ¬ (clen > 128)
          if do_listing then
            match stLookup st.varprint_stacks v_id with
            | some s =>
              let st := { st with
                varprint_stacks :=
                  stSet st.varprint_stacks v_id (s ++ [(newId, parent_depth + 1)]) }
              dfsChildLoop results v_id max_depth branch_depth branch_name
                parent_depth rest st
            | none => throw (.keyError "varprint_stacks")
          else
            dfsChildLoop results v_id max_depth branch_depth branch_name
              parent_depth rest st
        else
          dfsChildLoop results v_id max_depth branch_depth branch_name
            parent_depth rest st

/-- The tail of `varprint_dfs` (gdbbe.py lines 453-473): send the result
(or a missing-variable error) when the stack is empty, otherwise queue a
listing of the top of the stack; `_list_handler` passes the default
maxes when `reset_maxes` is set and the same values otherwise. -/
def dfsTail (name : String) (v_id : Nat) (max_depth : Int)
    (max_children : Nat) (reset_maxes : Bool) (branch_depth : Option Int)
    (branch_name : Option String) (st : VPState) :
    Except PyErr (VPState × DFSNext) := do
  let stack ← match stLookup st.varprint_stacks v_id with
    | some s => pure s
    | none => throw (.keyError "varprint_stacks")
  if stack = [] then
    match get_var_obj st.heap st.varobjs name with
    | some objId =>
      pure ({ st with sent := st.sent ++ [.result objId] }, .fellThrough none)
    | none =>
      pure ({ st with sent := st.sent ++ [.errorMsg "Variable does not exist."] },
            .fellThrough none)
  else
    match stack.getLast? with
    | none => throw .indexError
    | some (toListId, _) =>
      match st.heap.get toListId with
      | none => throw (.attributeError "name")
      | some toListVo =>
        let params : ListParams :=
          if reset_maxes then
            { max_depth := varprint_max_depth,
              max_children := varprint_max_children, reset_maxes := false,
              branch_depth := branch_depth, branch_name := branch_name }
          else
            { max_depth := max_depth, max_children := max_children,
              reset_maxes := reset_maxes, branch_depth := branch_depth,
              branch_name := branch_name }
        pure (st, .fellThrough (some (toListVo.name, params)))

/-- `GDBBE.varprint_dfs` (gdbbe.py lines 408-473) for one rank, driven by
the reply dict `results`: pop the stack, mark the popped object listed;
without "has_more" send the bad-data error; with "children" set
`more_children` when the reply exceeds `max_children`, process the first
`max_children` children, and then send the result or queue the next
listing. -/
def varprint_dfs (results : PyVDict) (v_id : Nat) (name : String)
    (max_depth : Int) (max_children : Nat) (reset_maxes : Bool)
    (branch_depth : Option Int) (branch_name : Option String)
    (st : VPState) : Except PyErr (VPState × DFSNext) := do
  let stack ← match stLookup st.varprint_stacks v_id with
    | some s => pure s
    | none => throw (.keyError "varprint_stacks")
  match stack.getLast? with
  | none => throw .indexError
  | some (curId, parent_depth) =>
    let st := { st with
      varprint_stacks := stSet st.varprint_stacks v_id stack.dropLast }
    let st ← match st.heap.get curId with
      | some vo => pure { st with heap := st.heap.set curId { vo with listed := true } }
      | none => throw (.attributeError "listed")
    if ¬ dContains results "has_more" then
      let st := { st with sent := st.sent ++ [.errorMsg "Got bad variable data."] }
      dfsTail name v_id max_depth max_children reset_maxes branch_depth
        branch_name st
    else if dContains results "children" then do
      let childrenVal ← dReq results "children"
      let clen ← pyLen childrenVal
      let st ← if clen > max_children then
          match st.heap.get curId with
          | some vo =>
            pure { st with heap := st.heap.set curId { vo with more_children := true } }
          | none => throw (.attributeError "more_children")
        else pure st
      let sliced ← pySliceTo childrenVal max_children
      let (st, early) ← dfsChildLoop results v_id max_depth branch_depth
        branch_name parent_depth sliced st
      if early then pure (st, .returnedTrue)
      else
        dfsTail name v_id max_depth max_children reset_maxes branch_depth
          branch_name st
    else
      dfsTail name v_id max_depth max_children reset_maxes branch_depth
        branch_name st

/-- A queued `var_list_children` command: the new stack id, the name of
the object whose children are listed, and the captured handler
parameters. -/
structure QueuedList where
  v_id : Nat
  objName : String
  params : ListParams
deriving DecidableEq

/-- `GDBBE.varprint_start_no_create` (gdbbe.py lines 394-406): allocate a
v_id, initialize its stack with the existing object at depth 0, and queue
a listing of it.  Line 400 is the chained assignment `branch_depth =
max_depth = VariableObjectManager.get_name_depth(name)`: it rebinds
`max_depth` to the name depth, discarding the caller's value (the
caller's `max_children` is kept). -/
def varprint_start_no_create (objId : Nat) (name : String)
    (max_depth : Int) (max_children : Nat) (reset_maxes : Bool)
    (st : VPState) : Except PyErr (VPState × QueuedList) := do
  let v_id := st.varprint_id
  let st := { st with varprint_id := st.varprint_id + 1 }
  let st := { st with varprint_stacks := stSet st.varprint_stacks v_id [(objId, 0)] }
  let _unused_caller_max_depth := max_depth
  let nd : Int := (get_name_depth name : Int)
  match st.heap.get objId with
  | none => throw (.attributeError "name")
  | some vo =>
    pure (st, { v_id := v_id, objName := vo.name,
                params := { max_depth := nd, max_children := max_children,
                            reset_maxes := reset_maxes,
                            branch_depth := some nd,
                            branch_name := some name } })

/-- `GDBBE.varprint_start` (gdbbe.py lines 365-392) up to issuing the
`var_create` command: allocate a v_id and return the base name of the
command plus the parameters a listing issued by `_create_handler` would
hand to `varprint_dfs` (`branch_depth = max_depth + get_name_depth(name)`).
-/
def varprint_start (name : String) (max_depth : Int) (max_children : Nat)
    (st : VPState) : VPState × Nat × String × ListParams :=
  let v_id := st.varprint_id
  let st := { st with varprint_id := st.varprint_id + 1 }
  let base_name := ((splitDot name).headD "")
  let branch_depth := max_depth + (get_name_depth name : Int)
  (st, v_id, base_name,
   { max_depth := max_depth, max_children := max_children,
     reset_maxes := false, branch_depth := some branch_depth,
     branch_name := some name })

/-- What `varprint_handler2` does: send an already-listed object, queue a
`var_list_children` (via `varprint_start_no_create`), or queue a
`var_create` (via `varprint_start`). -/
inductive H2Out
  | sentResult (objId : Nat)
  | queuedListing (q : QueuedList)
  | queuedCreate (v_id : Nat) (base_name : String) (params : ListParams)
deriving DecidableEq

/-- `GDBBE.varprint_handler2` (gdbbe.py lines 299-318) for one rank: an
object that is unlisted or has more children is relisted with
`max_children = sys.maxsize` and `reset_maxes = True`; a fully listed one
is sent as-is; otherwise start from the lowest ancestor or create the
object. -/
def varprint_handler2 (name : String) (st : VPState) :
    Except PyErr (VPState × H2Out) := do
  match get_var_obj st.heap st.varobjs name with
  | some objId =>
    match st.heap.get objId with
    | none => throw (.attributeError "listed")
    | some vo =>
      if ¬ vo.listed ∨ vo.more_children then do
        let (st, q) ← varprint_start_no_create objId name varprint_max_depth
          sysMaxsize true st
        pure (st, .queuedListing q)
      else
        pure ({ st with sent := st.sent ++ [.result objId] }, .sentResult objId)
  | none =>
    match get_lowest_ancestor st.heap st.varobjs name with
    | some ancId => do
      let (st, q) ← varprint_start_no_create ancId name varprint_max_depth
        varprint_max_children false st
      pure (st, .queuedListing q)
    | none =>
      let (st, vid, base, params) := varprint_start name varprint_max_depth
        varprint_max_children st
      pure (st, .queuedCreate vid base params)

/-- One entry of the `children` list of a var-list-children reply: the
tuple `("child", {name: "v.k", type: "int", numchild: "0"})`. -/
def c8Child (k : Nat) : PyV :=
  .vtup (PyVList.ofList [.str "child",
    .vdict (.cons "name" (.str ("v." ++ toString k))
      (.cons "type" (.str "int")
        (.cons "numchild" (.str "0") .nil)))])

/-- The reply dict of `-var-list-children` reporting 200 children. -/
def c8Reply : PyVDict :=
  .cons "numchild" (.str "200")
    (.cons "children" (.vlist (PyVList.ofList ((List.range 200).map c8Child)))
      (.cons "has_more" (.str "0") .nil))

/-- The root variable object `v` as `_create_handler` left it. -/
def c8Root : VarObjData :=
  { name := "v", vartype := some (.str "T"), num_child := .str "200" }

/-- State after `varprint_start`/`_create_handler` for `v`: the object in
the heap and root map, stack 0 holding `[(v, 0)]`, next v_id 1. -/
def c8St0 : VPState :=
  { heap := { objs := [(0, c8Root)], next := 1 },
    varobjs := [("v", 0)],
    varprint_stacks := [(0, [(0, 0)])],
    varprint_id := 1,
    sent := [] }

/-- First listing: the parameters `varprint_start`'s `_list_handler`
captured (defaults, `branch_depth = 3 + 1`, `branch_name = "v"`). -/
def c8Step1 : Except PyErr (VPState × DFSNext) :=
  varprint_dfs c8Reply 0 "v" varprint_max_depth varprint_max_children false
    (some 4) (some "v") c8St0

def c8St1 : VPState :=
  match c8Step1 with
  | .ok (st, _) => st
  | .error _ => c8St0

def c8H2 : Except PyErr (VPState × H2Out) := varprint_handler2 "v" c8St1

def c8St2 : VPState :=
  match c8H2 with
  | .ok (st, _) => st
  | .error _ => c8St1

def c8Q : QueuedList :=
  match c8H2 with
  | .ok (_, .queuedListing q) => q
  | _ => { v_id := 0, objName := "",
           params := { max_depth := 0, max_children := 0, reset_maxes := false,
                       branch_depth := none, branch_name := none } }

/-- Second listing, with the parameters captured by the handler that
`varprint_start_no_create` installed. -/
def c8Step2 : Except PyErr (VPState × DFSNext) :=
  varprint_dfs c8Reply c8Q.v_id "v" c8Q.params.max_depth c8Q.params.max_children
    c8Q.params.reset_maxes c8Q.params.branch_depth c8Q.params.branch_name c8St2

def c8St3 : VPState :=
  match c8Step2 with
  | .ok (st, _) => st
  | .error _ => c8St2

/-- The children count of the named variable object. -/
def vpChildCount (st : VPState) (name : String) : Option Nat :=
  match get_var_obj st.heap st.varobjs name with
  | some objId => (st.heap.get objId).map (fun vo => vo.children.length)
  | none => none

/-- The `more_children` flag of the named variable object. -/
def vpMoreChildren (st : VPState) (name : String) : Option Bool :=
  match get_var_obj st.heap st.varobjs name with
  | some objId => (st.heap.get objId).map (fun vo => vo.more_children)
  | none => none

set_option maxRecDepth 400000 in
set_option maxHeartbeats 4000000 in
/-- C8: with the reply reporting 200 children and the configured default
`max_children = 60`, the first `varprint_dfs` attaches exactly 60
children to `v`, sets `more_children`, empties the stack and sends the
result; `varprint_handler2` on the resulting state sees
`more_children` and queues a relisting of `v` with the cap raised to
`sys.maxsize` (`reset_maxes` set); the second `varprint_dfs` with those
parameters attaches all 200 children. -/
theorem C8_varprint_bounded_dfs :
    c8Step1 = .ok (c8St1, .fellThrough none) ∧
    vpChildCount c8St1 "v" = some 60 ∧
    vpMoreChildren c8St1 "v" = some true ∧
    c8St1.sent = [.result 0] ∧
    c8H2 = .ok (c8St2, .queuedListing c8Q) ∧
    c8Q.objName = "v" ∧
    c8Q.params.max_children = sysMaxsize ∧
    c8Q.params.reset_maxes = true ∧
    c8Step2 = .ok (c8St3, .fellThrough none) ∧
    vpChildCount c8St3 "v" = some 200 ∧
    c8St3.sent = [.result 0, .result 0] :=
  ⟨rfl, rfl, rfl, rfl, rfl, rfl, rfl, rfl, rfl, rfl, rfl⟩

end PGDB
